import Mathlib

/-!
# Privacy wallet service: request handlers of `PrivacyService.cpp`

A shallow embedding of `utt/privacy-wallet-service/src/PrivacyService.cpp`.

* The service object holds two handles, `wallet_` and `storage_`; a null handle is `none`.
* A handler receives the request message and the `response` pointer (`none` is a null
  pointer) and produces an `Outcome`: a returned `grpc::Status`, a thrown C++ exception,
  or `fault` (undefined behaviour: dereferencing a null handle, reading a repeated field
  out of range).
* The `Wallet` class, `utt::client::generateConfig` and the constructor of the storage
  are not part of this file's source; they are taken as the parameter `Collaborators`.
  Accessors declared `const` on the wallet are pure functions of the wallet value, every
  other method returns its result (or the exception it throws) with the new wallet value.
* Every exception of the collaborators derives from `std::exception`; the one that is
  caught by name, `InvalidCoinsInTransfer` (`transaction.hpp`), has its own constructor.
* Each handler also records, in `calls`, the wallet methods it invoked, in order.
* Writes to `std::cout` are not modelled.
-/

namespace PrivacyWallet

/-! ## Basic data -/

/-- A byte string (`bytes` fields, `std::vector<uint8_t>`). -/
abbrev Bytes := List (Fin 256)

/-- The codes of `grpc::StatusCode`. -/
inductive StatusCode
  | OK | CANCELLED | UNKNOWN | INVALID_ARGUMENT | DEADLINE_EXCEEDED | NOT_FOUND
  | ALREADY_EXISTS | PERMISSION_DENIED | RESOURCE_EXHAUSTED | FAILED_PRECONDITION
  | ABORTED | OUT_OF_RANGE | UNIMPLEMENTED | INTERNAL | UNAVAILABLE | DATA_LOSS
  | UNAUTHENTICATED
  deriving DecidableEq, Repr

/-- A `grpc::Status`: a code and an error message. -/
structure Status where
  code : StatusCode
  message : String
  deriving DecidableEq, Repr

/-- The constant `grpc::Status::OK`. -/
def Status.OK : Status := ⟨StatusCode.OK, ""⟩

/-- C++ exceptions that reach the service. `InvalidCoinsInTransfer` is the class of
`transaction.hpp`; `stdException` is any other class derived from `std::exception`
(`std::runtime_error` among them). The argument is the text of `what()`. -/
inductive Exn
  | InvalidCoinsInTransfer (msg : String)
  | stdException (msg : String)
  deriving DecidableEq, Repr

deriving instance DecidableEq for Except

/-- The text returned by `what()`. -/
def Exn.what : Exn → String
  | Exn.InvalidCoinsInTransfer msg => msg
  | Exn.stdException msg => msg

/-! ## `utt::Transaction` and friends -/

/-- The enumeration `utt::Transaction::Type`. -/
inductive TransactionType
  | Undefined | Mint | Burn | Transfer | Budget
  deriving DecidableEq, Repr

/-- The value type `utt::Transaction`: type, serialized data, number of outputs. -/
structure Transaction where
  type_ : TransactionType
  data_ : Bytes
  numOutputs_ : Nat
  deriving DecidableEq, Repr

/-- The type `utt::TxOutputSigs`: one signature per output. -/
abbrev TxOutputSigs := List Bytes

/-- The result of `generateBurnTx` and `generateTransferTx`. -/
structure TxResult where
  requiredTx_ : Transaction
  isFinal_ : Bool
  deriving DecidableEq, Repr

/-- The result of `generateRegistrationInput`. -/
structure RegistrationInput where
  rcm1 : Bytes
  rcm1_sig : Bytes
  deriving DecidableEq, Repr

/-- A coin descriptor as returned by `getCoinsDescriptors`. -/
structure CoinDescriptor where
  nullifier_ : String
  value_ : Nat
  deriving DecidableEq, Repr

/-- The input of `utt::client::generateConfig`. -/
structure ConfigInputParams where
  validatorPublicKeys : List String
  threshold : Nat
  useBudget : Bool
  deriving DecidableEq, Repr

/-! ## Finite maps (protobuf `Map`, storage) -/

/-- Insert-or-assign, the effect of `m[k] = v`. -/
def mapAssign {κ ν : Type} [DecidableEq κ] : List (κ × ν) → κ → ν → List (κ × ν)
  | [], k, v => [(k, v)]
  | (k1, v1) :: rest, k, v =>
    if k1 = k then (k, v) :: rest else (k1, v1) :: mapAssign rest k v

/-- Lookup of a key. -/
def mapFind {κ ν : Type} [DecidableEq κ] : List (κ × ν) → κ → Option ν
  | [], _ => none
  | (k1, v1) :: rest, k => if k1 = k then some v1 else mapFind rest k

/-- Modelled from the spec: the class `FileBasedUserStorage` is not among the sources; of
its state only the application key-value pairs matter to the handlers, and they are a
key-to-value map (`setAppData` / `getAppData` of the Storage interface). -/
structure Storage where
  app_data : List (String × String)
  deriving DecidableEq, Repr

/-- Modelled from the spec: `setAppData(key, value)` stores `value` under `key`. -/
def Storage.setAppData (st : Storage) (key value : String) : Storage :=
  ⟨mapAssign st.app_data key value⟩

/-- Modelled from the spec: `getAppData(key)` returns the value stored under `key`; a key
that was never set reads as the empty string. -/
def Storage.getAppData (st : Storage) (key : String) : String :=
  (mapFind st.app_data key).getD ""

/-! ## Request messages -/

/-- The enumeration `TxType` of the wire format; an open enumeration, so a request may
carry a value outside the four named ones. -/
inductive TxType
  | MINT | BURN | TRANSFER | BUDGET
  | unrecognized (value : Int)
  deriving DecidableEq, Repr

structure PrivacyAppConfigRequest where
  validatorpublickey : List String := []
  numvalidators : Int := 0
  budget : Bool := false
  deriving DecidableEq, Repr

structure PrivacyWalletConfigRequest where
  private_key : String := ""
  public_key : String := ""
  user_id : String := ""
  public_application_config : Bytes := []
  deriving DecidableEq, Repr

structure UserRegistrationRequest where
  deriving DecidableEq, Repr

structure UserRegistrationUpdateRequest where
  rcm_sig : Bytes := []
  s2 : List Nat := []
  deriving DecidableEq, Repr

structure ClaimCoinsRequest where
  tx : Bytes := []
  sigs : List Bytes := []
  type : TxType := TxType.MINT
  deriving DecidableEq, Repr

structure GenerateMintTxRequest where
  amount : Nat := 0
  deriving DecidableEq, Repr

structure GenerateBurnTxRequest where
  amount : Nat := 0
  deriving DecidableEq, Repr

structure GenerateTransferTxRequest where
  amount : Nat := 0
  recipient_pid : String := ""
  recipient_public_key : String := ""
  deriving DecidableEq, Repr

structure GetStateRequest where
  deriving DecidableEq, Repr

structure SetAppDataRequest where
  keys : List String := []
  values : List String := []
  deriving DecidableEq, Repr

structure GetAppDataRequest where
  keys : List String := []
  deriving DecidableEq, Repr

/-- The message `PrivacyWalletRequest`: for each payload, `has_x()` is `isSome` and the
accessor `x()` of an absent payload is the default message. -/
structure PrivacyWalletRequest where
  privacy_app_config : Option PrivacyAppConfigRequest := none
  privacy_wallet_config_request : Option PrivacyWalletConfigRequest := none
  user_registration_request : Option UserRegistrationRequest := none
  user_registration_update_request : Option UserRegistrationUpdateRequest := none
  claim_coins_request : Option ClaimCoinsRequest := none
  generate_mint_tx_request : Option GenerateMintTxRequest := none
  generate_burn_tx_request : Option GenerateBurnTxRequest := none
  generate_transfer_tx_request : Option GenerateTransferTxRequest := none
  get_state_request : Option GetStateRequest := none
  set_app_data_request : Option SetAppDataRequest := none
  get_app_data_request : Option GetAppDataRequest := none
  deriving DecidableEq, Repr

/-! ## Response messages -/

structure PrivacyAppConfigResponse where
  configuration : Bytes := []
  deriving DecidableEq, Repr

structure PrivacyWalletConfigResponse where
  succ : Bool := false
  deriving DecidableEq, Repr

structure UserRegistrationResponse where
  rcm1 : Bytes := []
  rcm1_sig : Bytes := []
  pid : String := ""
  deriving DecidableEq, Repr

structure UserRegistrationUpdateResponse where
  succ : Bool := false
  deriving DecidableEq, Repr

structure ClaimCoinsResponse where
  succ : Bool := false
  warning : Option String := none
  deriving DecidableEq, Repr

structure GenerateTxResponse where
  tx : Bytes := []
  final : Bool := false
  num_of_output_coins : Nat := 0
  deriving DecidableEq, Repr

structure GetStateResponse where
  budget : Nat := 0
  balance : Nat := 0
  user_id : String := ""
  coins : List (String × Nat) := []
  deriving DecidableEq, Repr

structure SetAppDataResponse where
  succ : Bool := false
  deriving DecidableEq, Repr

structure GetAppDataResponse where
  values : List String := []
  deriving DecidableEq, Repr

/-- The message `PrivacyWalletResponse`: the error text and the result payloads; for each
payload, `mutable_x()` creates the default message when it is absent. -/
structure PrivacyWalletResponse where
  err : Option String := none
  privacy_app_config_response : Option PrivacyAppConfigResponse := none
  privacy_wallet_config_response : Option PrivacyWalletConfigResponse := none
  user_registration_response : Option UserRegistrationResponse := none
  user_registration_update_response : Option UserRegistrationUpdateResponse := none
  claim_coins_response : Option ClaimCoinsResponse := none
  generate_tx_response : Option GenerateTxResponse := none
  get_state_response : Option GetStateResponse := none
  set_app_data_response : Option SetAppDataResponse := none
  get_app_data_response : Option GetAppDataResponse := none
  deriving DecidableEq, Repr

/-- The call `response->set_err(msg)`. -/
def PrivacyWalletResponse.set_err (r : PrivacyWalletResponse) (msg : String) :
    PrivacyWalletResponse :=
  { r with err := some msg }

/-! ## Collaborators, service state, results -/

/-- The wallet methods a handler can invoke, as recorded in `Result.calls`. -/
inductive WalletCall
  | isRegistered
  | generateRegistrationInput
  | getUserId
  | updateRegistrationCommitment
  | claimCoins
  | generateMintTx (amount : Nat)
  | generateBurnTx (amount : Nat)
  | generateTransferTx (amount : Nat)
  | getBudget
  | getBalance
  | getCoinsDescriptors
  deriving DecidableEq, Repr

/-- The code the handlers call into: `utt::client::generateConfig`, the constructors of
`FileBasedUserStorage` and `Wallet`, and the methods of `Wallet`, over a wallet value of
type `W`. -/
structure Collaborators (W : Type) where
  generateConfig : ConfigInputParams → Except Exn Bytes
  openStorage : String → Except Exn Storage
  newWallet : String → String → String → Storage → Bytes → Except Exn W
  isRegistered : W → Bool
  getUserId : W → String
  getBudget : W → Nat
  getBalance : W → Nat
  getCoinsDescriptors : W → List CoinDescriptor
  generateRegistrationInput : W → Except Exn (Option RegistrationInput) × W
  updateRegistrationCommitment : W → Bytes → List Nat → Except Exn Bool × W
  claimCoins : W → Transaction → TxOutputSigs → Except Exn Bool × W
  generateMintTx : W → Nat → Except Exn Transaction × W
  generateBurnTx : W → Nat → Except Exn TxResult × W
  generateTransferTx : W → Nat → String → String → Except Exn TxResult × W

/-- The members `wallet_` and `storage_` of `PrivacyWalletServiceImpl`. -/
structure ServiceState (W : Type) where
  wallet_ : Option W
  storage_ : Option Storage
  deriving DecidableEq, Repr

/-- How a call ends. -/
inductive Outcome
  | returned (status : Status)
  | threw (e : Exn)
  | fault
  deriving DecidableEq, Repr

/-- What a handler leaves behind: how it ended, the service members, the response message
(`none` for a null pointer) and the wallet methods it invoked. -/
structure Result (W : Type) where
  outcome : Outcome
  state : ServiceState W
  response : Option PrivacyWalletResponse
  calls : List WalletCall
  deriving DecidableEq, Repr

/-- The constant `PrivacyWalletServiceImpl::wallet_db_path`. -/
def wallet_db_path : String := "wallet-db"

/-- The error exit shared by the handlers:
`response->set_err(err_msg); return grpc::Status(code, err_msg);`. -/
def replyError {W : Type} (s : ServiceState W) (response : Option PrivacyWalletResponse)
    (calls : List WalletCall) (code : StatusCode) (err_msg : String) : Result W :=
  match response with
  | none => ⟨Outcome.fault, s, none, calls⟩
  | some r => ⟨Outcome.returned ⟨code, err_msg⟩, s, some (r.set_err err_msg), calls⟩

/-! ## The handlers -/

/-- The function `PrivacyWalletServiceImpl::handleApplicationConfigRequest`. The conversion
`uint16_t(numvalidators)` is reduction modulo `2^16`. When the generated configuration is
empty the response is not touched. -/
def handleApplicationConfigRequest {W : Type} (ops : Collaborators W) (s : ServiceState W)
    (request : PrivacyWalletRequest) (response : Option PrivacyWalletResponse) : Result W :=
  let req := request.privacy_app_config.getD {}
  let params : ConfigInputParams :=
    { validatorPublicKeys := req.validatorpublickey
      threshold := (req.numvalidators % 65536).toNat
      useBudget := req.budget }
  match ops.generateConfig params with
  | Except.error e => ⟨Outcome.threw e, s, response, []⟩
  | Except.ok config =>
    if config.isEmpty then
      ⟨Outcome.returned ⟨StatusCode.INTERNAL, "Failed to create config"⟩, s, response, []⟩
    else
      match response with
      | none => ⟨Outcome.fault, s, none, []⟩
      | some r =>
        let configResp := r.privacy_app_config_response.getD {}
        ⟨Outcome.returned Status.OK, s,
          some { r with privacy_app_config_response :=
                          some { configResp with configuration := config } }, []⟩

/-- The function `PrivacyWalletServiceImpl::handleWalletConfigRequest`. The storage handle is
assigned before the wallet is constructed, so an exception of the wallet constructor
leaves `storage_` set and `wallet_` null. -/
def handleWalletConfigRequest {W : Type} (ops : Collaborators W) (s : ServiceState W)
    (request : PrivacyWalletRequest) (response : Option PrivacyWalletResponse) : Result W :=
  match s.wallet_ with
  | some _ => replyError s response [] StatusCode.ALREADY_EXISTS "wallet is already configured"
  | none =>
    let req := request.privacy_wallet_config_request.getD {}
    let public_key := req.public_key
    let userId := req.user_id
    let publicConfig := req.public_application_config
    match ops.openStorage wallet_db_path with
    | Except.error e => ⟨Outcome.threw e, s, response, []⟩
    | Except.ok st =>
      let s1 : ServiceState W := { s with storage_ := some st }
      match ops.newWallet userId req.private_key public_key st publicConfig with
      | Except.error e => ⟨Outcome.threw e, s1, response, []⟩
      | Except.ok w =>
        let s2 : ServiceState W := { s1 with wallet_ := some w }
        match response with
        | none => ⟨Outcome.fault, s2, none, []⟩
        | some r =>
          let resp := r.privacy_wallet_config_response.getD {}
          ⟨Outcome.returned Status.OK, s2,
            some { r with privacy_wallet_config_response := some { resp with succ := true } },
            []⟩

/-- The function `PrivacyWalletServiceImpl::handleUserRegistrationRequest`. -/
def handleUserRegistrationRequest {W : Type} (ops : Collaborators W) (s : ServiceState W)
    (_request : PrivacyWalletRequest) (response : Option PrivacyWalletResponse) : Result W :=
  match s.wallet_ with
  | none => replyError s response [] StatusCode.NOT_FOUND "wallet is not configured"
  | some w =>
    if ops.isRegistered w then
      replyError s response [WalletCall.isRegistered] StatusCode.ALREADY_EXISTS
        "user is already registered"
    else
      let calls := [WalletCall.isRegistered, WalletCall.generateRegistrationInput]
      match ops.generateRegistrationInput w with
      | (Except.error e, w1) => ⟨Outcome.threw e, { s with wallet_ := some w1 }, response, calls⟩
      | (Except.ok none, w1) =>
        replyError { s with wallet_ := some w1 } response calls StatusCode.INTERNAL
          "error while generating registration input"
      | (Except.ok (some registration_input), w1) =>
        match response with
        | none => ⟨Outcome.fault, { s with wallet_ := some w1 }, none, calls⟩
        | some r =>
          let reg_response := r.user_registration_response.getD {}
          ⟨Outcome.returned Status.OK, { s with wallet_ := some w1 },
            some { r with user_registration_response :=
                            some { reg_response with
                                     rcm1 := registration_input.rcm1
                                     rcm1_sig := registration_input.rcm1_sig
                                     pid := ops.getUserId w1 } },
            calls ++ [WalletCall.getUserId]⟩

/-- The function `PrivacyWalletServiceImpl::handleUserRegistrationUpdateRequest`. -/
def handleUserRegistrationUpdateRequest {W : Type} (ops : Collaborators W)
    (s : ServiceState W) (request : PrivacyWalletRequest)
    (response : Option PrivacyWalletResponse) : Result W :=
  match s.wallet_ with
  | none => replyError s response [] StatusCode.NOT_FOUND "wallet is not configured"
  | some w =>
    if ops.isRegistered w then
      replyError s response [WalletCall.isRegistered] StatusCode.ALREADY_EXISTS
        "user is already registered"
    else
      let req := request.user_registration_update_request.getD {}
      let calls := [WalletCall.isRegistered, WalletCall.updateRegistrationCommitment]
      match ops.updateRegistrationCommitment w req.rcm_sig req.s2 with
      | (Except.error e, w1) => ⟨Outcome.threw e, { s with wallet_ := some w1 }, response, calls⟩
      | (Except.ok false, w1) =>
        replyError { s with wallet_ := some w1 } response calls StatusCode.ABORTED
          "unable to update registration data"
      | (Except.ok true, w1) =>
        match response with
        | none => ⟨Outcome.fault, { s with wallet_ := some w1 }, none, calls⟩
        | some r =>
          let resp := r.user_registration_update_response.getD {}
          ⟨Outcome.returned Status.OK, { s with wallet_ := some w1 },
            some { r with user_registration_update_response :=
                            some { resp with succ := true } },
            calls⟩

/-- The function `PrivacyWalletServiceImpl::buildClaimCoinsData`. The signature vector has
one entry per `sigs(i)` of the request, a copy of its bytes; the conversion
`static_cast<uint32_t>(sigs.size())` is reduction modulo `2^32`. -/
def buildClaimCoinsData (req : ClaimCoinsRequest) : Except Exn (Transaction × TxOutputSigs) :=
  let type? : Option TransactionType :=
    match req.type with
    | TxType.MINT => some TransactionType.Mint
    | TxType.BURN => some TransactionType.Burn
    | TxType.TRANSFER => some TransactionType.Transfer
    | TxType.BUDGET => some TransactionType.Budget
    | TxType.unrecognized _ => none
  match type? with
  | none => Except.error (Exn.stdException "invalid transaction type")
  | some type =>
    let sigs : TxOutputSigs := req.sigs.map fun sig => sig
    Except.ok (⟨type, req.tx, sigs.length % 2 ^ 32⟩, sigs)

/-- The tail of `handleUserClaimCoinsRequest` after the `try` block:
`if (response) set_succ(true); return OK`. -/
def claimCoinsSucceed {W : Type} (s : ServiceState W)
    (response : Option PrivacyWalletResponse) (calls : List WalletCall) : Result W :=
  match response with
  | none => ⟨Outcome.returned Status.OK, s, none, calls⟩
  | some r =>
    let resp := r.claim_coins_response.getD {}
    ⟨Outcome.returned Status.OK, s,
      some { r with claim_coins_response := some { resp with succ := true } }, calls⟩

/-- The two `catch` clauses of `handleUserClaimCoinsRequest`: `InvalidCoinsInTransfer` sets
the warning of the claim response and execution continues after the `try` block; any
other `std::exception` sets `err` and returns `ABORTED`. -/
def claimCoinsCatch {W : Type} (s : ServiceState W)
    (response : Option PrivacyWalletResponse) (calls : List WalletCall) (e : Exn) : Result W :=
  match e with
  | Exn.InvalidCoinsInTransfer msg =>
    match response with
    | none => ⟨Outcome.fault, s, none, calls⟩
    | some r =>
      let resp := r.claim_coins_response.getD {}
      claimCoinsSucceed s
        (some { r with claim_coins_response := some { resp with warning := some msg } }) calls
  | Exn.stdException msg => replyError s response calls StatusCode.ABORTED msg

/-- The function `PrivacyWalletServiceImpl::handleUserClaimCoinsRequest`. -/
def handleUserClaimCoinsRequest {W : Type} (ops : Collaborators W) (s : ServiceState W)
    (request : PrivacyWalletRequest) (response : Option PrivacyWalletResponse) : Result W :=
  match s.wallet_ with
  | none => replyError s response [] StatusCode.NOT_FOUND "wallet is not configured"
  | some w =>
    if !ops.isRegistered w then
      replyError s response [WalletCall.isRegistered] StatusCode.NOT_FOUND
        "user is not registered"
    else
      match buildClaimCoinsData (request.claim_coins_request.getD {}) with
      | Except.error e => claimCoinsCatch s response [WalletCall.isRegistered] e
      | Except.ok data =>
        let calls := [WalletCall.isRegistered, WalletCall.claimCoins]
        match ops.claimCoins w data.1 data.2 with
        | (Except.error e, w1) => claimCoinsCatch { s with wallet_ := some w1 } response calls e
        | (Except.ok false, w1) =>
          replyError { s with wallet_ := some w1 } response calls StatusCode.ABORTED
            "unable to claim coins"
        | (Except.ok true, w1) => claimCoinsSucceed { s with wallet_ := some w1 } response calls

/-- The function `PrivacyWalletServiceImpl::handleUserMintRequest`. -/
def handleUserMintRequest {W : Type} (ops : Collaborators W) (s : ServiceState W)
    (request : PrivacyWalletRequest) (response : Option PrivacyWalletResponse) : Result W :=
  match s.wallet_ with
  | none => replyError s response [] StatusCode.NOT_FOUND "wallet is not configured"
  | some w =>
    if !ops.isRegistered w then
      replyError s response [WalletCall.isRegistered] StatusCode.NOT_FOUND
        "user is not registered"
    else
      let mint_req := request.generate_mint_tx_request.getD {}
      let calls := [WalletCall.isRegistered, WalletCall.generateMintTx mint_req.amount]
      match ops.generateMintTx w mint_req.amount with
      | (Except.error e, w1) => ⟨Outcome.threw e, { s with wallet_ := some w1 }, response, calls⟩
      | (Except.ok res, w1) =>
        match response with
        | none => ⟨Outcome.fault, { s with wallet_ := some w1 }, none, calls⟩
        | some r =>
          let tx_resp := r.generate_tx_response.getD {}
          ⟨Outcome.returned Status.OK, { s with wallet_ := some w1 },
            some { r with generate_tx_response :=
                            some { tx_resp with
                                     tx := res.data_
                                     final := true
                                     num_of_output_coins := 1 } },
            calls⟩

/-- The function `PrivacyWalletServiceImpl::handleUserBurnRequest`. -/
def handleUserBurnRequest {W : Type} (ops : Collaborators W) (s : ServiceState W)
    (request : PrivacyWalletRequest) (response : Option PrivacyWalletResponse) : Result W :=
  match s.wallet_ with
  | none => replyError s response [] StatusCode.NOT_FOUND "wallet is not configured"
  | some w =>
    if !ops.isRegistered w then
      replyError s response [WalletCall.isRegistered] StatusCode.NOT_FOUND
        "user is not registered"
    else
      let burn_req := request.generate_burn_tx_request.getD {}
      let calls := [WalletCall.isRegistered, WalletCall.generateBurnTx burn_req.amount]
      match ops.generateBurnTx w burn_req.amount with
      | (Except.error e, w1) => ⟨Outcome.threw e, { s with wallet_ := some w1 }, response, calls⟩
      | (Except.ok res, w1) =>
        match response with
        | none => ⟨Outcome.fault, { s with wallet_ := some w1 }, none, calls⟩
        | some r =>
          let tx_resp := r.generate_tx_response.getD {}
          ⟨Outcome.returned Status.OK, { s with wallet_ := some w1 },
            some { r with generate_tx_response :=
                            some { tx_resp with
                                     tx := res.requiredTx_.data_
                                     final := res.isFinal_
                                     num_of_output_coins := res.requiredTx_.numOutputs_ } },
            calls⟩

/-- The function `PrivacyWalletServiceImpl::handleUserTransferRequest`. -/
def handleUserTransferRequest {W : Type} (ops : Collaborators W) (s : ServiceState W)
    (request : PrivacyWalletRequest) (response : Option PrivacyWalletResponse) : Result W :=
  match s.wallet_ with
  | none => replyError s response [] StatusCode.NOT_FOUND "wallet is not configured"
  | some w =>
    if !ops.isRegistered w then
      replyError s response [WalletCall.isRegistered] StatusCode.NOT_FOUND
        "user is not registered"
    else
      let transfer_req := request.generate_transfer_tx_request.getD {}
      let calls := [WalletCall.isRegistered, WalletCall.generateTransferTx transfer_req.amount]
      match ops.generateTransferTx w transfer_req.amount transfer_req.recipient_pid
              transfer_req.recipient_public_key with
      | (Except.error e, w1) => ⟨Outcome.threw e, { s with wallet_ := some w1 }, response, calls⟩
      | (Except.ok res, w1) =>
        match response with
        | none => ⟨Outcome.fault, { s with wallet_ := some w1 }, none, calls⟩
        | some r =>
          let tx_resp := r.generate_tx_response.getD {}
          ⟨Outcome.returned Status.OK, { s with wallet_ := some w1 },
            some { r with generate_tx_response :=
                            some { tx_resp with
                                     tx := res.requiredTx_.data_
                                     final := res.isFinal_
                                     num_of_output_coins := res.requiredTx_.numOutputs_ } },
            calls⟩

/-- The loop of `handleGetStateRequest` over the coin descriptors:
`coins[coin.nullifier_] = coin.value_` for each descriptor, in order. -/
def fillCoins (coins : List (String × Nat)) : List CoinDescriptor → List (String × Nat)
  | [] => coins
  | coin :: rest => fillCoins (mapAssign coins coin.nullifier_ coin.value_) rest

/-- The function `PrivacyWalletServiceImpl::handleGetStateRequest`. -/
def handleGetStateRequest {W : Type} (ops : Collaborators W) (s : ServiceState W)
    (_request : PrivacyWalletRequest) (response : Option PrivacyWalletResponse) : Result W :=
  match s.wallet_ with
  | none => replyError s response [] StatusCode.NOT_FOUND "wallet is not configured"
  | some w =>
    if !ops.isRegistered w then
      replyError s response [WalletCall.isRegistered] StatusCode.NOT_FOUND
        "user is not registered"
    else
      let calls := [WalletCall.isRegistered, WalletCall.getBudget, WalletCall.getBalance,
        WalletCall.getUserId, WalletCall.getCoinsDescriptors]
      match response with
      | none => ⟨Outcome.fault, s, none, [WalletCall.isRegistered]⟩
      | some r =>
        let state_resp := r.get_state_response.getD {}
        ⟨Outcome.returned Status.OK, s,
          some { r with get_state_response :=
                          some { state_resp with
                                   budget := ops.getBudget w
                                   balance := ops.getBalance w
                                   user_id := ops.getUserId w
                                   coins := fillCoins state_resp.coins
                                     (ops.getCoinsDescriptors w) } },
          calls⟩

/-- The loop of `handleSetAppDataRequest`: for each index below `keys().size()`, in order,
`storage_->setAppData(keys(i), values(i))`. Reading `values(i)` past the end of `values`
is a fault (`none`). -/
def setAppDataLoop (st : Storage) : List String → List String → Option Storage
  | [], _ => some st
  | _ :: _, [] => none
  | key :: keys, value :: values => setAppDataLoop (st.setAppData key value) keys values

/-- The function `PrivacyWalletServiceImpl::handleSetAppDataRequest`. The storage handle is
dereferenced in the loop body only, so a request without keys does not touch it. -/
def handleSetAppDataRequest {W : Type} (_ops : Collaborators W) (s : ServiceState W)
    (request : PrivacyWalletRequest) (response : Option PrivacyWalletResponse) : Result W :=
  let set_app_data_req := request.set_app_data_request.getD {}
  let done (s1 : ServiceState W) : Result W :=
    match response with
    | none => ⟨Outcome.returned Status.OK, s1, none, []⟩
    | some r =>
      let set_app_data_resp := r.set_app_data_response.getD {}
      ⟨Outcome.returned Status.OK, s1,
        some { r with set_app_data_response := some { set_app_data_resp with succ := true } },
        []⟩
  match set_app_data_req.keys with
  | [] => done s
  | key :: keys =>
    match s.storage_ with
    | none => ⟨Outcome.fault, s, response, []⟩
    | some st =>
      match setAppDataLoop st (key :: keys) set_app_data_req.values with
      | none => ⟨Outcome.fault, s, response, []⟩
      | some st1 => done { s with storage_ := some st1 }

/-- The function `PrivacyWalletServiceImpl::handleGetAppDataRequest`: with a response present,
one `add_values(storage_->getAppData(keys(i)))` per key, in order. The storage handle is
dereferenced in the loop body only. -/
def handleGetAppDataRequest {W : Type} (_ops : Collaborators W) (s : ServiceState W)
    (request : PrivacyWalletRequest) (response : Option PrivacyWalletResponse) : Result W :=
  match response with
  | none => ⟨Outcome.returned Status.OK, s, none, []⟩
  | some r =>
    let get_app_data_req := request.get_app_data_request.getD {}
    let get_app_data_resp := r.get_app_data_response.getD {}
    match get_app_data_req.keys with
    | [] =>
      ⟨Outcome.returned Status.OK, s,
        some { r with get_app_data_response := some get_app_data_resp }, []⟩
    | key :: keys =>
      match s.storage_ with
      | none => ⟨Outcome.fault, s, some r, []⟩
      | some st =>
        ⟨Outcome.returned Status.OK, s,
          some { r with get_app_data_response :=
                          some { get_app_data_resp with
                                   values := get_app_data_resp.values ++
                                     (key :: keys).map st.getAppData } },
          []⟩

/-- The chain of `has_x()` tests of the dispatcher: the handler of the first payload that
is present, `none` when the request carries none of the eleven payloads. -/
def selectHandler {W : Type} (ops : Collaborators W) (request : PrivacyWalletRequest) :
    Option (ServiceState W → PrivacyWalletRequest → Option PrivacyWalletResponse → Result W) :=
  if request.privacy_app_config.isSome then some (handleApplicationConfigRequest ops)
  else if request.privacy_wallet_config_request.isSome then some (handleWalletConfigRequest ops)
  else if request.user_registration_request.isSome then
    some (handleUserRegistrationRequest ops)
  else if request.user_registration_update_request.isSome then
    some (handleUserRegistrationUpdateRequest ops)
  else if request.claim_coins_request.isSome then some (handleUserClaimCoinsRequest ops)
  else if request.generate_mint_tx_request.isSome then some (handleUserMintRequest ops)
  else if request.generate_burn_tx_request.isSome then some (handleUserBurnRequest ops)
  else if request.generate_transfer_tx_request.isSome then
    some (handleUserTransferRequest ops)
  else if request.get_state_request.isSome then some (handleGetStateRequest ops)
  else if request.set_app_data_request.isSome then some (handleSetAppDataRequest ops)
  else if request.get_app_data_request.isSome then some (handleGetAppDataRequest ops)
  else none

/-- The function `PrivacyWalletServiceImpl::PrivacyWalletService`, the dispatcher: the
selected handler runs inside `try`; `catch (const std::exception& e)` turns an exception
into `FAILED_PRECONDITION` with the text of `e.what()`; a request without a recognised
payload yields `UNKNOWN`, "Unknown error". -/
def PrivacyWalletService {W : Type} (ops : Collaborators W) (s : ServiceState W)
    (request : PrivacyWalletRequest) (response : Option PrivacyWalletResponse) : Result W :=
  match selectHandler ops request with
  | none => ⟨Outcome.returned ⟨StatusCode.UNKNOWN, "Unknown error"⟩, s, response, []⟩
  | some handler =>
    let res := handler s request response
    match res.outcome with
    | Outcome.threw e =>
      { res with outcome := Outcome.returned ⟨StatusCode.FAILED_PRECONDITION, e.what⟩ }
    | _ => res

/-! ## Running several requests, and a concrete wallet -/

/-- Serve a sequence of requests with one handler, one after another, each with its own
response message, starting from `s`; the results in order. -/
def serveAll {W : Type}
    (handler : ServiceState W → PrivacyWalletRequest → Option PrivacyWalletResponse → Result W)
    (s : ServiceState W) : List (PrivacyWalletRequest × PrivacyWalletResponse) → List (Result W)
  | [] => []
  | (request, r) :: rest =>
    let res := handler s request (some r)
    res :: serveAll handler res.state rest

/-- Whether the service has a wallet that reports itself registered
(`wallet_ && wallet_->isRegistered()`). -/
def registeredIn {W : Type} (ops : Collaborators W) (s : ServiceState W) : Bool :=
  match s.wallet_ with
  | none => false
  | some w => ops.isRegistered w

/-- A small concrete wallet on which the theorems are exercised: an identifier, the
registration flag and the coins it holds. -/
structure DemoWallet where
  userId : String
  registered : Bool
  coins : List CoinDescriptor
  deriving DecidableEq, Repr

/-- Collaborators over `DemoWallet`. Registration succeeds for a non-empty signature.
Claiming a `Transfer` without signatures raises `InvalidCoinsInTransfer`, claiming a
`Burn` reports failure, any other claim adds one coin per signature. Burning more than the
balance throws. -/
def demoOps : Collaborators DemoWallet where
  generateConfig := fun params => Except.ok (List.replicate params.threshold 7)
  openStorage := fun _ => Except.ok ⟨[]⟩
  newWallet := fun userId _ _ _ _ => Except.ok ⟨userId, false, []⟩
  isRegistered := fun w => w.registered
  getUserId := fun w => w.userId
  getBudget := fun w => if w.registered then 1000 else 0
  getBalance := fun w => (w.coins.map fun c => c.value_).sum
  getCoinsDescriptors := fun w => w.coins
  generateRegistrationInput := fun w => (Except.ok (some ⟨[1], [2]⟩), w)
  updateRegistrationCommitment := fun w rcm_sig _ =>
    if rcm_sig.isEmpty then (Except.ok false, w)
    else (Except.ok true, { w with registered := true })
  claimCoins := fun w tx sigs =>
    match tx.type_ with
    | TransactionType.Transfer =>
      if sigs.isEmpty then (Except.error (Exn.InvalidCoinsInTransfer "invalid coins"), w)
      else (Except.ok true, { w with coins := w.coins ++ sigs.map fun _ => ⟨"n", 1⟩ })
    | TransactionType.Burn => (Except.ok false, w)
    | _ => (Except.ok true, { w with coins := w.coins ++ sigs.map fun _ => ⟨"n", 1⟩ })
  generateMintTx := fun w amount =>
    (Except.ok ⟨TransactionType.Mint, [Fin.ofNat amount], 1⟩, w)
  generateBurnTx := fun w amount =>
    if (w.coins.map fun c => c.value_).sum < amount then
      (Except.error (Exn.stdException "not enough coins"), w)
    else (Except.ok ⟨⟨TransactionType.Burn, [Fin.ofNat amount], 0⟩, true⟩, w)
  generateTransferTx := fun w amount _ _ =>
    (Except.ok ⟨⟨TransactionType.Transfer, [Fin.ofNat amount], 2⟩, false⟩, w)

/-- A service whose wallet is configured and not registered. -/
def demoConfigured : ServiceState DemoWallet := ⟨some ⟨"alice", false, []⟩, some ⟨[]⟩⟩

/-- A service whose wallet is configured and registered, holding three coins, two of them
under the same nullifier. -/
def demoRegistered : ServiceState DemoWallet :=
  ⟨some ⟨"alice", true, [⟨"n1", 5⟩, ⟨"n2", 7⟩, ⟨"n1", 9⟩]⟩, some ⟨[]⟩⟩

/-! ## Start-up and sequences of requests -/

/-- The constructor `PrivacyWalletServiceImpl::PrivacyWalletServiceImpl`: `wallet_` becomes
what `Wallet::recoverFromStorage(wallet_db_path)` returns, null when no wallet was stored;
`storage_` is not assigned and stays null. When the recovery throws, the process exits and
there is no service (`none`). -/
def PrivacyWalletServiceImpl {W : Type} (recoverFromStorage : String → Except Exn (Option W)) :
    Option (ServiceState W) :=
  match recoverFromStorage wallet_db_path with
  | Except.error _ => none
  | Except.ok wallet => some ⟨wallet, none⟩

/-- The service members after the dispatcher has served the requests one after another,
each with its own response message, starting from `s`. -/
def stateAfter {W : Type} (ops : Collaborators W) (s : ServiceState W) :
    List (PrivacyWalletRequest × PrivacyWalletResponse) → ServiceState W
  | [] => s
  | (request, r) :: rest =>
    stateAfter ops (PrivacyWalletService ops s request (some r)).state rest

/-! ## Reference definitions used in the statements -/

/-- The value at the last position at which `key` occurs among `keys`, positions being
paired with those of `values`; `none` when `key` does not occur. -/
def lastValueFor (keys values : List String) (key : String) : Option String :=
  ((keys.zip values).reverse.find? fun p => decide (p.1 = key)).map fun p => p.2

/-- The value of the last descriptor whose nullifier is `nullifier`; `none` when there is
no such descriptor. -/
def lastCoinValue (coins : List CoinDescriptor) (nullifier : String) : Option Nat :=
  (coins.reverse.find? fun coin => decide (coin.nullifier_ = nullifier)).map fun coin =>
    coin.value_

/-- The handler of the first recognised payload: the payloads in the order in which the
dispatcher tests them, each with its handler, and the first one that is present. -/
def firstRecognisedHandler {W : Type} (ops : Collaborators W) (request : PrivacyWalletRequest) :
    Option (ServiceState W → PrivacyWalletRequest → Option PrivacyWalletResponse → Result W) :=
  ([(request.privacy_app_config.isSome, handleApplicationConfigRequest ops),
    (request.privacy_wallet_config_request.isSome, handleWalletConfigRequest ops),
    (request.user_registration_request.isSome, handleUserRegistrationRequest ops),
    (request.user_registration_update_request.isSome, handleUserRegistrationUpdateRequest ops),
    (request.claim_coins_request.isSome, handleUserClaimCoinsRequest ops),
    (request.generate_mint_tx_request.isSome, handleUserMintRequest ops),
    (request.generate_burn_tx_request.isSome, handleUserBurnRequest ops),
    (request.generate_transfer_tx_request.isSome, handleUserTransferRequest ops),
    (request.get_state_request.isSome, handleGetStateRequest ops),
    (request.set_app_data_request.isSome, handleSetAppDataRequest ops),
    (request.get_app_data_request.isSome, handleGetAppDataRequest ops)].find? fun p =>
      p.1).map fun p => p.2

/-! ## Theorems -/

/-- In a state whose wallet reports itself registered, a registration-update request takes
the `ALREADY_EXISTS` exit and changes nothing. -/
theorem registrationUpdate_of_registered {W : Type} (ops : Collaborators W)
    (s : ServiceState W) (h : registeredIn ops s = true) (request : PrivacyWalletRequest)
    (r : PrivacyWalletResponse) :
    handleUserRegistrationUpdateRequest ops s request (some r) =
      ⟨Outcome.returned ⟨StatusCode.ALREADY_EXISTS, "user is already registered"⟩, s,
        some (r.set_err "user is already registered"), [WalletCall.isRegistered]⟩ := by
  unfold registeredIn at h
  unfold handleUserRegistrationUpdateRequest
  cases hw : s.wallet_ with
  | none => simp [hw] at h
  | some w =>
    simp only [hw] at h
    simp [h, replyError]

/-- A sequence of registration-update requests served in a state whose wallet reports
itself registered: every one of them takes the `ALREADY_EXISTS` exit. -/
theorem serveAll_registrationUpdate_of_registered {W : Type} (ops : Collaborators W)
    (s : ServiceState W) (h : registeredIn ops s = true)
    (later : List (PrivacyWalletRequest × PrivacyWalletResponse)) :
    serveAll (handleUserRegistrationUpdateRequest ops) s later =
      later.map fun p =>
        ⟨Outcome.returned ⟨StatusCode.ALREADY_EXISTS, "user is already registered"⟩, s,
          some (p.2.set_err "user is already registered"), [WalletCall.isRegistered]⟩ := by
  induction later with
  | nil => rfl
  | cons p rest ih =>
    obtain ⟨request, r⟩ := p
    simp only [serveAll, List.map_cons]
    rw [registrationUpdate_of_registered ops s h request r]
    simp only [ih]

/-- Claim C1 (registration is one-shot). Let a registration-update request succeed (status
OK) and let the wallet report itself registered afterwards. Then (a) in the state it
leaves, and in any state `s1` whose wallet reports itself registered, a registration-update
request returns `ALREADY_EXISTS` with message "user is already registered", sets the
response `err` to that message, calls only `isRegistered` on the wallet (so not
`updateRegistrationCommitment`) and leaves the service members unchanged; (b) every request
of any sequence of later registration-update requests ends that way. -/
theorem registration_update_one_shot {W : Type} (ops : Collaborators W) (s : ServiceState W)
    (request0 : PrivacyWalletRequest) (r0 : PrivacyWalletResponse)
    (hfirst : (handleUserRegistrationUpdateRequest ops s request0 (some r0)).outcome =
      Outcome.returned Status.OK)
    (hregistered :
      registeredIn ops (handleUserRegistrationUpdateRequest ops s request0 (some r0)).state
        = true) :
    (∀ (s1 : ServiceState W) (request : PrivacyWalletRequest) (r : PrivacyWalletResponse),
        (s1 = (handleUserRegistrationUpdateRequest ops s request0 (some r0)).state ∨
          registeredIn ops s1 = true) →
        (handleUserRegistrationUpdateRequest ops s1 request (some r)).outcome =
            Outcome.returned ⟨StatusCode.ALREADY_EXISTS, "user is already registered"⟩ ∧
          (handleUserRegistrationUpdateRequest ops s1 request (some r)).response =
            some { r with err := some "user is already registered" } ∧
          WalletCall.updateRegistrationCommitment ∉
            (handleUserRegistrationUpdateRequest ops s1 request (some r)).calls ∧
          (handleUserRegistrationUpdateRequest ops s1 request (some r)).state = s1) ∧
    (∀ (later : List (PrivacyWalletRequest × PrivacyWalletResponse)),
        serveAll (handleUserRegistrationUpdateRequest ops)
            (handleUserRegistrationUpdateRequest ops s request0 (some r0)).state later =
          later.map fun p =>
            ⟨Outcome.returned ⟨StatusCode.ALREADY_EXISTS, "user is already registered"⟩,
              (handleUserRegistrationUpdateRequest ops s request0 (some r0)).state,
              some { p.2 with err := some "user is already registered" },
              [WalletCall.isRegistered]⟩) := by
  have _ := hfirst
  refine ⟨?_, ?_⟩
  · intro s1 request r hs1
    have h1 : registeredIn ops s1 = true := by
      rcases hs1 with h | h
      · rw [h]; exact hregistered
      · exact h
    rw [registrationUpdate_of_registered ops s1 h1 request r]
    simp [PrivacyWalletResponse.set_err]
  · intro later
    rw [serveAll_registrationUpdate_of_registered ops _ hregistered later]
    rfl

/-- Claim C1 on the demo wallet: the first registration update of a configured wallet
succeeds and registers it; two later ones are rejected. -/
theorem registration_update_one_shot_witness :
    (handleUserRegistrationUpdateRequest demoOps demoConfigured
        { user_registration_update_request := some { rcm_sig := [1], s2 := [2] } }
        (some {})).outcome = Outcome.returned Status.OK ∧
    registeredIn demoOps (handleUserRegistrationUpdateRequest demoOps demoConfigured
        { user_registration_update_request := some { rcm_sig := [1], s2 := [2] } }
        (some {})).state = true ∧
    serveAll (handleUserRegistrationUpdateRequest demoOps)
        (handleUserRegistrationUpdateRequest demoOps demoConfigured
          { user_registration_update_request := some { rcm_sig := [1], s2 := [2] } }
          (some {})).state
        [({ user_registration_update_request := some { rcm_sig := [3], s2 := [4] } }, {}),
         ({ user_registration_update_request := some {} }, {})] =
      [⟨Outcome.returned ⟨StatusCode.ALREADY_EXISTS, "user is already registered"⟩,
          ⟨some ⟨"alice", true, []⟩, some ⟨[]⟩⟩,
          some { err := some "user is already registered" }, [WalletCall.isRegistered]⟩,
       ⟨Outcome.returned ⟨StatusCode.ALREADY_EXISTS, "user is already registered"⟩,
          ⟨some ⟨"alice", true, []⟩, some ⟨[]⟩⟩,
          some { err := some "user is already registered" }, [WalletCall.isRegistered]⟩] :=
  ⟨by decide, by decide,
    (registration_update_one_shot demoOps demoConfigured
      { user_registration_update_request := some { rcm_sig := [1], s2 := [2] } } {}
      (by decide) (by decide)).2
      [({ user_registration_update_request := some { rcm_sig := [3], s2 := [4] } }, {}),
       ({ user_registration_update_request := some {} }, {})]⟩

/-- Claim C2. While a wallet is configured, every wallet-config request returns
`ALREADY_EXISTS` with message "wallet is already configured", sets the response `err` to
that message and changes nothing else in the response, and leaves `wallet_` and `storage_`
as they were; the result does not depend on the collaborators, so neither a storage nor a
wallet is constructed. -/
theorem wallet_config_already_configured {W : Type} (ops : Collaborators W) (w : W)
    (storage : Option Storage) (request : PrivacyWalletRequest) (r : PrivacyWalletResponse) :
    handleWalletConfigRequest ops ⟨some w, storage⟩ request (some r) =
      ⟨Outcome.returned ⟨StatusCode.ALREADY_EXISTS, "wallet is already configured"⟩,
        ⟨some w, storage⟩, some { r with err := some "wallet is already configured" }, []⟩ := by
  simp [handleWalletConfigRequest, replyError, PrivacyWalletResponse.set_err]

/-- Claim C3. Without a configured wallet, each of the handlers of registration,
registration-update, claim-coins, mint, burn, transfer and get-state requests returns
`NOT_FOUND` with message "wallet is not configured", sets the response `err` to that
message and no payload, invokes no wallet method, and leaves the service without a
wallet: the seven results are all the same. -/
theorem not_configured_not_found {W : Type} (ops : Collaborators W)
    (storage : Option Storage) (request : PrivacyWalletRequest) (r : PrivacyWalletResponse) :
    List.map (fun handler => handler ⟨none, storage⟩ request (some r))
        [handleUserRegistrationRequest ops, handleUserRegistrationUpdateRequest ops,
          handleUserClaimCoinsRequest ops, handleUserMintRequest ops, handleUserBurnRequest ops,
          handleUserTransferRequest ops, handleGetStateRequest ops] =
      List.replicate 7
        ⟨Outcome.returned ⟨StatusCode.NOT_FOUND, "wallet is not configured"⟩,
          ⟨none, storage⟩, some { r with err := some "wallet is not configured" }, []⟩ := by
  simp [handleUserRegistrationRequest, handleUserRegistrationUpdateRequest,
    handleUserClaimCoinsRequest, handleUserMintRequest, handleUserBurnRequest,
    handleUserTransferRequest, handleGetStateRequest, replyError,
    PrivacyWalletResponse.set_err, List.replicate]

/-- Claim C4. On a configured wallet that does not report itself registered, each of the
handlers of claim-coins, mint, burn, transfer and get-state requests returns `NOT_FOUND`
with message "user is not registered", sets `err`, and calls `isRegistered` only (none of
`claimCoins`, `generateMintTx`, `generateBurnTx`, `generateTransferTx`, `getBalance`,
`getBudget`); and whatever the state and the response pointer, such a handler returns a
status with code `OK` only if the wallet is configured and reports itself registered. -/
theorem not_registered_not_found {W : Type} (ops : Collaborators W) (w : W)
    (hw : ops.isRegistered w = false) :
    ∀ handler ∈ [handleUserClaimCoinsRequest ops, handleUserMintRequest ops,
        handleUserBurnRequest ops, handleUserTransferRequest ops, handleGetStateRequest ops],
      (∀ (storage : Option Storage) (request : PrivacyWalletRequest)
          (r : PrivacyWalletResponse),
        handler ⟨some w, storage⟩ request (some r) =
          ⟨Outcome.returned ⟨StatusCode.NOT_FOUND, "user is not registered"⟩,
            ⟨some w, storage⟩, some { r with err := some "user is not registered" },
            [WalletCall.isRegistered]⟩) ∧
      (∀ (s : ServiceState W) (request : PrivacyWalletRequest)
          (response : Option PrivacyWalletResponse) (status : Status),
        (handler s request response).outcome = Outcome.returned status →
          status.code = StatusCode.OK → registeredIn ops s = true) := by
  intro handler hmem
  simp only [List.mem_cons, List.mem_singleton, List.not_mem_nil, or_false] at hmem
  refine ⟨?_, ?_⟩
  · intro storage request r
    rcases hmem with h | h | h | h | h <;> subst h <;>
      simp [handleUserClaimCoinsRequest, handleUserMintRequest, handleUserBurnRequest,
        handleUserTransferRequest, handleGetStateRequest, replyError,
        PrivacyWalletResponse.set_err, hw]
  · intro s request response status hout hcode
    obtain ⟨wallet, storage⟩ := s
    cases wallet with
    | none =>
      exfalso
      rcases hmem with h | h | h | h | h <;> subst h <;> cases response <;>
        simp [handleUserClaimCoinsRequest, handleUserMintRequest, handleUserBurnRequest,
          handleUserTransferRequest, handleGetStateRequest, replyError] at hout <;>
        (subst hout; simp at hcode)
    | some w1 =>
      cases hreg : ops.isRegistered w1 with
      | true => simp [registeredIn, hreg]
      | false =>
        exfalso
        rcases hmem with h | h | h | h | h <;> subst h <;> cases response <;>
          simp [handleUserClaimCoinsRequest, handleUserMintRequest, handleUserBurnRequest,
            handleUserTransferRequest, handleGetStateRequest, replyError, hreg] at hout <;>
          (subst hout; simp at hcode)

/-- Claim C4 on the demo wallet: a mint request on the configured, unregistered wallet. -/
theorem not_registered_not_found_witness :
    demoOps.isRegistered ⟨"alice", false, []⟩ = false ∧
    handleUserMintRequest demoOps ⟨some ⟨"alice", false, []⟩, some ⟨[]⟩⟩
        { generate_mint_tx_request := some { amount := 10 } } (some {}) =
      ⟨Outcome.returned ⟨StatusCode.NOT_FOUND, "user is not registered"⟩,
        ⟨some ⟨"alice", false, []⟩, some ⟨[]⟩⟩,
        some { err := some "user is not registered" }, [WalletCall.isRegistered]⟩ :=
  ⟨by decide,
    ((not_registered_not_found demoOps ⟨"alice", false, []⟩ (by decide)
      (handleUserMintRequest demoOps) (by simp)).1 (some ⟨[]⟩)
      { generate_mint_tx_request := some { amount := 10 } } {})⟩

/-- Claim C5. On a configured wallet that reports itself registered, a mint request with
amount `amount`, for which `generateMintTx(amount)` produces the transaction `tx`, returns
OK with a transaction response whose bytes are `tx.data_`, whose number of output coins
is 1 and whose final flag is true. -/
theorem mint_request_response {W : Type} (ops : Collaborators W) (w w1 : W)
    (storage : Option Storage) (request : PrivacyWalletRequest) (amount : Nat)
    (r : PrivacyWalletResponse) (tx : Transaction)
    (hreg : ops.isRegistered w = true)
    (hmint : ops.generateMintTx w amount = (Except.ok tx, w1)) :
    handleUserMintRequest ops ⟨some w, storage⟩
        { request with generate_mint_tx_request := some { amount := amount } } (some r) =
      ⟨Outcome.returned Status.OK, ⟨some w1, storage⟩,
        some { r with generate_tx_response :=
                        some { tx := tx.data_, final := true, num_of_output_coins := 1 } },
        [WalletCall.isRegistered, WalletCall.generateMintTx amount]⟩ := by
  simp [handleUserMintRequest, hreg, hmint]

/-- Claim C5 on the demo wallet: minting 10. -/
theorem mint_request_response_witness :
    demoOps.isRegistered ⟨"alice", true, []⟩ = true ∧
    demoOps.generateMintTx ⟨"alice", true, []⟩ 10 =
      (Except.ok ⟨TransactionType.Mint, [10], 1⟩, ⟨"alice", true, []⟩) ∧
    handleUserMintRequest demoOps ⟨some ⟨"alice", true, []⟩, none⟩
        { generate_mint_tx_request := some { amount := 10 } } (some {}) =
      ⟨Outcome.returned Status.OK, ⟨some ⟨"alice", true, []⟩, none⟩,
        some { generate_tx_response :=
                 some { tx := [10], final := true, num_of_output_coins := 1 } },
        [WalletCall.isRegistered, WalletCall.generateMintTx 10]⟩ :=
  ⟨by decide, by decide,
    mint_request_response demoOps ⟨"alice", true, []⟩ ⟨"alice", true, []⟩ none {} 10 {}
      ⟨TransactionType.Mint, [10], 1⟩ (by decide) (by decide)⟩

/-- Claim C6, refuted as stated: on the demo wallet, configured and registered, claiming a
`TRANSFER` without signatures makes `claimCoins` raise `InvalidCoinsInTransfer`, and the
handler returns OK with the claim response marked successful. -/
theorem claim_invalid_coins_reported_as_success :
    demoOps.isRegistered ⟨"alice", true, []⟩ = true ∧
    buildClaimCoinsData { tx := [1], sigs := [], type := TxType.TRANSFER } =
      Except.ok (⟨TransactionType.Transfer, [1], 0⟩, []) ∧
    demoOps.claimCoins ⟨"alice", true, []⟩ ⟨TransactionType.Transfer, [1], 0⟩ [] =
      (Except.error (Exn.InvalidCoinsInTransfer "invalid coins"), ⟨"alice", true, []⟩) ∧
    (handleUserClaimCoinsRequest demoOps ⟨some ⟨"alice", true, []⟩, some ⟨[]⟩⟩
        { claim_coins_request := some { tx := [1], sigs := [], type := TxType.TRANSFER } }
        (some {})).outcome = Outcome.returned Status.OK ∧
    (handleUserClaimCoinsRequest demoOps ⟨some ⟨"alice", true, []⟩, some ⟨[]⟩⟩
        { claim_coins_request := some { tx := [1], sigs := [], type := TxType.TRANSFER } }
        (some {})).response =
      some { claim_coins_response := some { succ := true, warning := some "invalid coins" } } := by
  decide

/-- Claim C6, amended. On a configured wallet that reports itself registered, when
`claimCoins` raises `InvalidCoinsInTransfer` with text `msg`, the handler reports a
warning and not an error: it returns OK, sets the warning of the claim response to `msg`
and its `succ` flag to true, and leaves `err` as it was. -/
theorem claim_invalid_coins_warning {W : Type} (ops : Collaborators W) (w w1 : W)
    (storage : Option Storage) (request : PrivacyWalletRequest) (r : PrivacyWalletResponse)
    (data : Transaction × TxOutputSigs) (msg : String)
    (hreg : ops.isRegistered w = true)
    (hbuild : buildClaimCoinsData (request.claim_coins_request.getD {}) = Except.ok data)
    (hclaim : ops.claimCoins w data.1 data.2 = (Except.error (Exn.InvalidCoinsInTransfer msg), w1)) :
    handleUserClaimCoinsRequest ops ⟨some w, storage⟩ request (some r) =
      ⟨Outcome.returned Status.OK, ⟨some w1, storage⟩,
        some { r with claim_coins_response := some { succ := true, warning := some msg } },
        [WalletCall.isRegistered, WalletCall.claimCoins]⟩ := by
  simp [handleUserClaimCoinsRequest, hreg, hbuild, hclaim, claimCoinsCatch, claimCoinsSucceed]

/-- Claim C6, amended, on the demo wallet. -/
theorem claim_invalid_coins_warning_witness :
    demoOps.isRegistered ⟨"alice", true, []⟩ = true ∧
    handleUserClaimCoinsRequest demoOps ⟨some ⟨"alice", true, []⟩, none⟩
        { claim_coins_request := some { tx := [2], sigs := [], type := TxType.TRANSFER } }
        (some { err := some "old" }) =
      ⟨Outcome.returned Status.OK, ⟨some ⟨"alice", true, []⟩, none⟩,
        some { err := some "old",
               claim_coins_response := some { succ := true, warning := some "invalid coins" } },
        [WalletCall.isRegistered, WalletCall.claimCoins]⟩ :=
  ⟨by decide,
    claim_invalid_coins_warning demoOps ⟨"alice", true, []⟩ ⟨"alice", true, []⟩ none
      { claim_coins_request := some { tx := [2], sigs := [], type := TxType.TRANSFER } }
      { err := some "old" } (⟨TransactionType.Transfer, [2], 0⟩, []) "invalid coins"
      (by decide) (by decide) (by decide)⟩

/-- Claim C7. On a configured wallet that reports itself registered, when `claimCoins`
returns false the handler returns `ABORTED` with message "unable to claim coins", sets
`err` to that message and leaves the claim response (so its `succ` flag) untouched. And in
any state: when the claim response was not marked successful before the call and is
marked successful after it, the wallet was configured and registered, the claim data were
built, and `claimCoins` returned true or raised `InvalidCoinsInTransfer`; it did not
return false. -/
theorem claim_failure_aborted {W : Type} (ops : Collaborators W) (w w1 : W)
    (storage : Option Storage) (request : PrivacyWalletRequest) (r : PrivacyWalletResponse)
    (data : Transaction × TxOutputSigs)
    (hreg : ops.isRegistered w = true)
    (hbuild : buildClaimCoinsData (request.claim_coins_request.getD {}) = Except.ok data)
    (hclaim : ops.claimCoins w data.1 data.2 = (Except.ok false, w1)) :
    handleUserClaimCoinsRequest ops ⟨some w, storage⟩ request (some r) =
        ⟨Outcome.returned ⟨StatusCode.ABORTED, "unable to claim coins"⟩, ⟨some w1, storage⟩,
          some { r with err := some "unable to claim coins" },
          [WalletCall.isRegistered, WalletCall.claimCoins]⟩ ∧
    (∀ (s : ServiceState W) (request1 : PrivacyWalletRequest) (r1 r2 : PrivacyWalletResponse),
      (r1.claim_coins_response.getD {}).succ = false →
      (handleUserClaimCoinsRequest ops s request1 (some r1)).response = some r2 →
      (r2.claim_coins_response.getD {}).succ = true →
      ∃ (w2 : W) (data1 : Transaction × TxOutputSigs),
        s.wallet_ = some w2 ∧ ops.isRegistered w2 = true ∧
        buildClaimCoinsData (request1.claim_coins_request.getD {}) = Except.ok data1 ∧
        (ops.claimCoins w2 data1.1 data1.2).1 ≠ Except.ok false ∧
        ((ops.claimCoins w2 data1.1 data1.2).1 = Except.ok true ∨
          ∃ msg, (ops.claimCoins w2 data1.1 data1.2).1 =
            Except.error (Exn.InvalidCoinsInTransfer msg))) := by
  refine ⟨?_, ?_⟩
  · simp [handleUserClaimCoinsRequest, hreg, hbuild, hclaim, replyError,
      PrivacyWalletResponse.set_err]
  · intro s request1 r1 r2 hbefore hresp hafter
    obtain ⟨wallet, storage1⟩ := s
    cases wallet with
    | none =>
      simp [handleUserClaimCoinsRequest, replyError, PrivacyWalletResponse.set_err] at hresp
      subst hresp
      simp [hbefore] at hafter
    | some w2 =>
      cases hreg2 : ops.isRegistered w2 with
      | false =>
        simp [handleUserClaimCoinsRequest, replyError, PrivacyWalletResponse.set_err,
          hreg2] at hresp
        subst hresp
        simp [hbefore] at hafter
      | true =>
        cases hb : buildClaimCoinsData (request1.claim_coins_request.getD {}) with
        | error e =>
          exfalso
          have he : e = Exn.stdException "invalid transaction type" := by
            cases htype : (request1.claim_coins_request.getD {}).type <;>
              simp [buildClaimCoinsData, htype] at hb
            exact hb.symm
          subst he
          simp [handleUserClaimCoinsRequest, replyError, PrivacyWalletResponse.set_err,
            hreg2, hb, claimCoinsCatch] at hresp
          subst hresp
          simp [hbefore] at hafter
        | ok data1 =>
          refine ⟨w2, data1, rfl, hreg2, rfl, ?_⟩
          rcases hc : ops.claimCoins w2 data1.1 data1.2 with ⟨res, w3⟩
          cases res with
          | ok b =>
            cases b with
            | true => simp
            | false =>
              exfalso
              simp [handleUserClaimCoinsRequest, replyError, PrivacyWalletResponse.set_err,
                hreg2, hb, hc] at hresp
              subst hresp
              simp [hbefore] at hafter
          | error e =>
            cases e with
            | InvalidCoinsInTransfer msg => simp
            | stdException msg =>
              exfalso
              simp [handleUserClaimCoinsRequest, replyError, PrivacyWalletResponse.set_err,
                hreg2, hb, hc, claimCoinsCatch] at hresp
              subst hresp
              simp [hbefore] at hafter

/-- Claim C7 on the demo wallet: claiming a `BURN`, which the demo wallet refuses. -/
theorem claim_failure_aborted_witness :
    demoOps.isRegistered ⟨"alice", true, []⟩ = true ∧
    handleUserClaimCoinsRequest demoOps ⟨some ⟨"alice", true, []⟩, none⟩
        { claim_coins_request := some { tx := [3], sigs := [[4]], type := TxType.BURN } }
        (some {}) =
      ⟨Outcome.returned ⟨StatusCode.ABORTED, "unable to claim coins"⟩,
        ⟨some ⟨"alice", true, []⟩, none⟩, some { err := some "unable to claim coins" },
        [WalletCall.isRegistered, WalletCall.claimCoins]⟩ :=
  ⟨by decide,
    (claim_failure_aborted demoOps ⟨"alice", true, []⟩ ⟨"alice", true, []⟩ none
      { claim_coins_request := some { tx := [3], sigs := [[4]], type := TxType.BURN } } {}
      (⟨TransactionType.Burn, [3], 1⟩, [[4]]) (by decide) (by decide) (by decide)).1⟩

/-! ### Maps -/

/-- Lookup after insert-or-assign. -/
theorem mapFind_mapAssign {κ ν : Type} [DecidableEq κ] (m : List (κ × ν)) (k : κ) (v : ν)
    (k1 : κ) : mapFind (mapAssign m k v) k1 = if k = k1 then some v else mapFind m k1 := by
  induction m with
  | nil => simp [mapAssign, mapFind]
  | cons p rest ih =>
    obtain ⟨k0, v0⟩ := p
    by_cases h0 : k0 = k
    · subst h0
      by_cases h1 : k0 = k1 <;> simp [mapAssign, mapFind, h1]
    · by_cases h1 : k0 = k1
      · subst h1
        simp [mapAssign, mapFind, h0, Ne.symm h0]
      · simp [mapAssign, mapFind, h0, h1, ih]

/-- Unfolding `lastValueFor` at the head of the request. -/
theorem lastValueFor_cons (key : String) (keys : List String) (value : String)
    (values : List String) (k : String) :
    lastValueFor (key :: keys) (value :: values) k =
      (lastValueFor keys values k).or (if key = k then some value else none) := by
  unfold lastValueFor
  simp only [List.zip_cons_cons, List.reverse_cons, List.find?_append]
  cases (keys.zip values).reverse.find? fun p => decide (p.1 = k) with
  | some p => simp
  | none =>
    by_cases h : key = k <;> simp [List.find?, h]

/-- A key that does not occur has no last value. -/
theorem lastValueFor_eq_none (keys values : List String) (k : String) (h : k ∉ keys) :
    lastValueFor keys values k = none := by
  induction keys generalizing values with
  | nil => simp [lastValueFor]
  | cons key rest ih =>
    cases values with
    | nil => simp [lastValueFor]
    | cons value values =>
      have h1 : key ≠ k := fun e => h (by simp [e])
      have h2 : k ∉ rest := fun e => h (by simp [e])
      simp [lastValueFor_cons, ih values h2, h1]

/-- A key that occurs has a last value, when there is a value for every key. -/
theorem lastValueFor_isSome (keys values : List String) (k : String) (h : k ∈ keys)
    (hlen : keys.length = values.length) : (lastValueFor keys values k).isSome = true := by
  induction keys generalizing values with
  | nil => simp at h
  | cons key rest ih =>
    cases values with
    | nil => simp at hlen
    | cons value values =>
      have hlen1 : rest.length = values.length := by simpa using hlen
      rw [lastValueFor_cons]
      by_cases hk : k ∈ rest
      · have := ih values hk hlen1
        cases hv : lastValueFor rest values k with
        | none => simp [hv] at this
        | some v => simp
      · have hkey : key = k := by
          rcases List.mem_cons.mp h with e | e
          · exact e.symm
          · exact absurd e hk
        simp [lastValueFor_eq_none rest values k hk, hkey]

/-- For pairwise-distinct keys the last values are the submitted values. -/
theorem lastValueFor_nodup (keys values : List String) (hlen : keys.length = values.length)
    (hnodup : keys.Nodup) : keys.map (lastValueFor keys values) = values.map some := by
  induction keys generalizing values with
  | nil =>
    cases values with
    | nil => rfl
    | cons value values => simp at hlen
  | cons key rest ih =>
    cases values with
    | nil => simp at hlen
    | cons value values =>
      have hlen1 : rest.length = values.length := by simpa using hlen
      obtain ⟨hnot, hrest⟩ := List.nodup_cons.mp hnodup
      simp only [List.map_cons, lastValueFor_cons]
      rw [lastValueFor_eq_none rest values key hnot]
      simp only [if_true, Option.none_or, List.cons.injEq, true_and]
      rw [← ih values hlen1 hrest]
      apply List.map_congr_left
      intro k hk
      have hsome := lastValueFor_isSome rest values k hk hlen1
      rw [lastValueFor_cons]
      cases hv : lastValueFor rest values k with
      | none => simp [hv] at hsome
      | some v => simp

/-- The loop of the set-app-data handler succeeds when there is a value for every key, and
afterwards a key reads as its last value in the request, or as before when the request
does not mention it. -/
theorem setAppDataLoop_find (keys values : List String) (st : Storage)
    (hlen : keys.length = values.length) :
    ∃ st1, setAppDataLoop st keys values = some st1 ∧
      ∀ k, mapFind st1.app_data k = (lastValueFor keys values k).or (mapFind st.app_data k) := by
  induction keys generalizing values st with
  | nil => exact ⟨st, rfl, fun k => by simp [lastValueFor]⟩
  | cons key rest ih =>
    cases values with
    | nil => simp at hlen
    | cons value values =>
      have hlen1 : rest.length = values.length := by simpa using hlen
      obtain ⟨st1, hst1, hfind⟩ := ih values (st.setAppData key value) hlen1
      refine ⟨st1, by simpa [setAppDataLoop] using hst1, ?_⟩
      intro k
      rw [hfind k, lastValueFor_cons, Option.or_assoc]
      congr 1
      simp only [Storage.setAppData, mapFind_mapAssign]
      by_cases h : key = k <;> simp [h]

/-- The loop of the get-state handler: afterwards a nullifier maps to the value of its last
descriptor, or to what it mapped to before when no descriptor has it. -/
theorem fillCoins_find (descriptors : List CoinDescriptor) (coins : List (String × Nat))
    (k : String) :
    mapFind (fillCoins coins descriptors) k =
      (lastCoinValue descriptors k).or (mapFind coins k) := by
  induction descriptors generalizing coins with
  | nil => simp [fillCoins, lastCoinValue]
  | cons coin rest ih =>
    have hcons : lastCoinValue (coin :: rest) k =
        (lastCoinValue rest k).or (if coin.nullifier_ = k then some coin.value_ else none) := by
      unfold lastCoinValue
      simp only [List.reverse_cons, List.find?_append]
      cases rest.reverse.find? fun c => decide (c.nullifier_ = k) with
      | some c => simp
      | none => by_cases h : coin.nullifier_ = k <;> simp [List.find?, h]
    rw [fillCoins, ih, hcons, Option.or_assoc, mapFind_mapAssign]
    congr 1
    by_cases h : coin.nullifier_ = k <;> simp [h]

/-! ### Application data and state -/

/-- The set-app-data handler on an initialised storage handle, when the loop succeeds. -/
theorem handleSetAppDataRequest_of_loop {W : Type} (ops : Collaborators W)
    (wallet : Option W) (st st1 : Storage) (request : PrivacyWalletRequest)
    (r : PrivacyWalletResponse)
    (hloop : setAppDataLoop st (request.set_app_data_request.getD {}).keys
      (request.set_app_data_request.getD {}).values = some st1) :
    handleSetAppDataRequest ops ⟨wallet, some st⟩ request (some r) =
      ⟨Outcome.returned Status.OK, ⟨wallet, some st1⟩,
        some { r with set_app_data_response :=
                        some { (r.set_app_data_response.getD {}) with succ := true } }, []⟩ := by
  unfold handleSetAppDataRequest
  cases hkeys : (request.set_app_data_request.getD {}).keys with
  | nil =>
    rw [hkeys] at hloop
    simp only [setAppDataLoop, Option.some.injEq] at hloop
    subst hloop
    simp [hkeys]
  | cons key keys =>
    rw [hkeys] at hloop
    simp [hkeys, hloop]

/-- The get-app-data handler on an initialised storage handle: one value per key, appended
to the values already in the response. -/
theorem handleGetAppDataRequest_of_storage {W : Type} (ops : Collaborators W)
    (wallet : Option W) (st : Storage) (request : PrivacyWalletRequest)
    (r : PrivacyWalletResponse) :
    handleGetAppDataRequest ops ⟨wallet, some st⟩ request (some r) =
      ⟨Outcome.returned Status.OK, ⟨wallet, some st⟩,
        some { r with get_app_data_response :=
                        some { values := (r.get_app_data_response.getD {}).values ++
                                 (request.get_app_data_request.getD {}).keys.map
                                   st.getAppData } }, []⟩ := by
  unfold handleGetAppDataRequest
  cases hkeys : (request.get_app_data_request.getD {}).keys with
  | nil => simp [hkeys]
  | cons key keys => simp [hkeys]

/-- Claim C8 (application data round trip, the storage being a key-to-value map). With the
storage handle initialised and one value for every key, a set-app-data request
`(keys, values)` returns OK, and a following get-app-data request for the same keys
returns OK and adds to its response exactly one value per key, in key order: the value
for a key is the value at the last position at which the key occurs in the set request;
for pairwise-distinct keys these are exactly the submitted values, in order. The values
come after those already in the response, of which a fresh response has none. -/
theorem app_data_round_trip {W : Type} (ops : Collaborators W) (wallet : Option W)
    (st : Storage) (keys values : List String) (hlen : keys.length = values.length)
    (request1 request2 : PrivacyWalletRequest) (r1 r2 : PrivacyWalletResponse) :
    (handleSetAppDataRequest ops ⟨wallet, some st⟩
        { request1 with set_app_data_request := some { keys := keys, values := values } }
        (some r1)).outcome = Outcome.returned Status.OK ∧
    (handleGetAppDataRequest ops
        (handleSetAppDataRequest ops ⟨wallet, some st⟩
          { request1 with set_app_data_request := some { keys := keys, values := values } }
          (some r1)).state
        { request2 with get_app_data_request := some { keys := keys } }
        (some r2)).outcome = Outcome.returned Status.OK ∧
    ∃ returned : List String,
      (handleGetAppDataRequest ops
          (handleSetAppDataRequest ops ⟨wallet, some st⟩
            { request1 with set_app_data_request := some { keys := keys, values := values } }
            (some r1)).state
          { request2 with get_app_data_request := some { keys := keys } }
          (some r2)).response =
        some { r2 with get_app_data_response :=
                         some { values := (r2.get_app_data_response.getD {}).values ++
                                  returned } } ∧
      returned.length = keys.length ∧
      returned.map some = keys.map (lastValueFor keys values) ∧
      (keys.Nodup → returned = values) := by
  obtain ⟨st1, hloop, hfind⟩ := setAppDataLoop_find keys values st hlen
  have hset := handleSetAppDataRequest_of_loop ops wallet st st1
    { request1 with set_app_data_request := some { keys := keys, values := values } } r1
    (by simpa using hloop)
  rw [hset]
  have hget := handleGetAppDataRequest_of_storage ops wallet st1
    { request2 with get_app_data_request := some { keys := keys } } r2
  rw [hget]
  have hvals : (keys.map st1.getAppData).map some = keys.map (lastValueFor keys values) := by
    rw [List.map_map]
    apply List.map_congr_left
    intro k hk
    have hsome := lastValueFor_isSome keys values k hk hlen
    simp only [Function.comp, Storage.getAppData, hfind k]
    cases hv : lastValueFor keys values k with
    | none => simp [hv] at hsome
    | some v => simp
  refine ⟨rfl, rfl, keys.map st1.getAppData, by simp, by simp, hvals, ?_⟩
  intro hnodup
  have h := hvals
  rw [lastValueFor_nodup keys values hlen hnodup] at h
  exact List.map_injective_iff.mpr (Option.some_injective _) h

/-- Claim C8 on a concrete request: the key "a" is set twice, the later value wins. -/
theorem app_data_round_trip_witness :
    ["a", "b", "a"].length = ["1", "2", "3"].length ∧
    (handleGetAppDataRequest demoOps
        (handleSetAppDataRequest demoOps ⟨none, some ⟨[("b", "0")]⟩⟩
          { set_app_data_request := some { keys := ["a", "b", "a"], values := ["1", "2", "3"] } }
          (some {})).state
        { get_app_data_request := some { keys := ["a", "b", "a"] } }
        (some {})).outcome = Outcome.returned Status.OK ∧
    (handleGetAppDataRequest demoOps
        (handleSetAppDataRequest demoOps ⟨none, some ⟨[("b", "0")]⟩⟩
          { set_app_data_request := some { keys := ["a", "b", "a"], values := ["1", "2", "3"] } }
          (some {})).state
        { get_app_data_request := some { keys := ["a", "b", "a"] } }
        (some {})).response =
      some { get_app_data_response := some { values := ["3", "2", "3"] } } ∧
    ["a", "b", "a"].map (lastValueFor ["a", "b", "a"] ["1", "2", "3"]) =
      [some "3", some "2", some "3"] :=
  ⟨by decide,
    (app_data_round_trip demoOps none ⟨[("b", "0")]⟩ ["a", "b", "a"] ["1", "2", "3"]
      (by decide) {} {} {} {}).2.1,
    by decide, by decide⟩

/-- Claim C9 (get-state is a read-only view). On a configured wallet that reports itself
registered, the get-state handler returns OK with budget, balance and user id equal to
`getBudget()`, `getBalance()` and `getUserId()`; in the coins map a nullifier maps to the
value of the last descriptor that has it (and to what the response held before when no
descriptor has it, which for a fresh response is nothing); `wallet_` and `storage_` are
unchanged, and a second get-state request served in the state left by the first produces
the same result. -/
theorem get_state_read_only {W : Type} (ops : Collaborators W) (w : W)
    (storage : Option Storage) (hreg : ops.isRegistered w = true)
    (request request1 : PrivacyWalletRequest) (r : PrivacyWalletResponse) :
    handleGetStateRequest ops ⟨some w, storage⟩ request (some r) =
        ⟨Outcome.returned Status.OK, ⟨some w, storage⟩,
          some { r with get_state_response :=
                          some { budget := ops.getBudget w
                                 balance := ops.getBalance w
                                 user_id := ops.getUserId w
                                 coins := fillCoins (r.get_state_response.getD {}).coins
                                   (ops.getCoinsDescriptors w) } },
          [WalletCall.isRegistered, WalletCall.getBudget, WalletCall.getBalance,
            WalletCall.getUserId, WalletCall.getCoinsDescriptors]⟩ ∧
    (∀ k, mapFind (fillCoins (r.get_state_response.getD {}).coins (ops.getCoinsDescriptors w)) k
        = (lastCoinValue (ops.getCoinsDescriptors w) k).or
            (mapFind (r.get_state_response.getD {}).coins k)) ∧
    handleGetStateRequest ops
        (handleGetStateRequest ops ⟨some w, storage⟩ request (some r)).state request1 (some r) =
      handleGetStateRequest ops ⟨some w, storage⟩ request (some r) := by
  have h : ∀ req : PrivacyWalletRequest,
      handleGetStateRequest ops ⟨some w, storage⟩ req (some r) =
        ⟨Outcome.returned Status.OK, ⟨some w, storage⟩,
          some { r with get_state_response :=
                          some { budget := ops.getBudget w
                                 balance := ops.getBalance w
                                 user_id := ops.getUserId w
                                 coins := fillCoins (r.get_state_response.getD {}).coins
                                   (ops.getCoinsDescriptors w) } },
          [WalletCall.isRegistered, WalletCall.getBudget, WalletCall.getBalance,
            WalletCall.getUserId, WalletCall.getCoinsDescriptors]⟩ := by
    intro req
    simp [handleGetStateRequest, hreg]
  refine ⟨h request, fun k => fillCoins_find _ _ k, ?_⟩
  rw [h request, h request1]

/-- Claim C9 on the demo wallet: three coins, two under the nullifier "n1". -/
theorem get_state_read_only_witness :
    demoOps.isRegistered ⟨"alice", true, [⟨"n1", 5⟩, ⟨"n2", 7⟩, ⟨"n1", 9⟩]⟩ = true ∧
    handleGetStateRequest demoOps demoRegistered { get_state_request := some {} } (some {}) =
      ⟨Outcome.returned Status.OK, demoRegistered,
        some { get_state_response :=
                 some { budget := 1000, balance := 21, user_id := "alice",
                        coins := [("n1", 9), ("n2", 7)] } },
        [WalletCall.isRegistered, WalletCall.getBudget, WalletCall.getBalance,
          WalletCall.getUserId, WalletCall.getCoinsDescriptors]⟩ :=
  ⟨by decide,
    (get_state_read_only demoOps ⟨"alice", true, [⟨"n1", 5⟩, ⟨"n2", 7⟩, ⟨"n1", 9⟩]⟩
      (some ⟨[]⟩) (by decide) { get_state_request := some {} } {} {}).1⟩

/-! ### The dispatcher -/

/-- The chain of tests of the dispatcher selects the handler of the first recognised
payload. -/
theorem selectHandler_eq_firstRecognised {W : Type} (ops : Collaborators W)
    (request : PrivacyWalletRequest) :
    selectHandler ops request = firstRecognisedHandler ops request := by
  unfold selectHandler firstRecognisedHandler
  cases request.privacy_app_config.isSome
  case true => rfl
  cases request.privacy_wallet_config_request.isSome
  case true => rfl
  cases request.user_registration_request.isSome
  case true => rfl
  cases request.user_registration_update_request.isSome
  case true => rfl
  cases request.claim_coins_request.isSome
  case true => rfl
  cases request.generate_mint_tx_request.isSome
  case true => rfl
  cases request.generate_burn_tx_request.isSome
  case true => rfl
  cases request.generate_transfer_tx_request.isSome
  case true => rfl
  cases request.get_state_request.isSome
  case true => rfl
  cases request.set_app_data_request.isSome
  case true => rfl
  cases request.get_app_data_request.isSome
  case true => rfl
  rfl

/-- Claim C10. The dispatcher never ends with an exception. When the handler of the first
recognised payload throws an exception with text `m`, the dispatcher returns
`FAILED_PRECONDITION` with message `m`; when the request carries none of the eleven
payloads, it returns `UNKNOWN` with message "Unknown error" and touches nothing; and when
the handler of the first recognised payload returns a status, the dispatcher returns that
status (with the state and the response the handler left). -/
theorem dispatcher_status {W : Type} (ops : Collaborators W) (s : ServiceState W)
    (request : PrivacyWalletRequest) (response : Option PrivacyWalletResponse) :
    (∀ e, (PrivacyWalletService ops s request response).outcome ≠ Outcome.threw e) ∧
    (∀ handler e, firstRecognisedHandler ops request = some handler →
      (handler s request response).outcome = Outcome.threw e →
      PrivacyWalletService ops s request response =
        { handler s request response with
          outcome := Outcome.returned ⟨StatusCode.FAILED_PRECONDITION, e.what⟩ }) ∧
    (firstRecognisedHandler ops request = none →
      PrivacyWalletService ops s request response =
        ⟨Outcome.returned ⟨StatusCode.UNKNOWN, "Unknown error"⟩, s, response, []⟩) ∧
    (firstRecognisedHandler ops request = none ↔ request = {}) ∧
    (∀ handler status, firstRecognisedHandler ops request = some handler →
      (handler s request response).outcome = Outcome.returned status →
      PrivacyWalletService ops s request response = handler s request response) := by
  refine ⟨?_, ?_, ?_, ?_, ?_⟩
  · intro e
    unfold PrivacyWalletService
    cases hsel : selectHandler ops request with
    | none => simp
    | some handler =>
      simp only
      cases hout : (handler s request response).outcome <;> simp [hout]
  · intro handler e hsel hout
    rw [← selectHandler_eq_firstRecognised] at hsel
    simp [PrivacyWalletService, hsel, hout]
  · intro hsel
    rw [← selectHandler_eq_firstRecognised] at hsel
    simp [PrivacyWalletService, hsel]
  · constructor
    · intro hsel
      obtain ⟨f1, f2, f3, f4, f5, f6, f7, f8, f9, f10, f11⟩ := request
      simp only [firstRecognisedHandler, Option.map_eq_none', List.find?_eq_none,
        List.mem_cons, List.mem_singleton, List.not_mem_nil, or_false, forall_eq_or_imp,
        forall_eq, Bool.not_eq_true, Option.not_isSome, Option.isNone_iff_eq_none] at hsel
      obtain ⟨h1, h2, h3, h4, h5, h6, h7, h8, h9, h10, h11⟩ := hsel
      simp_all
    · intro h
      subst h
      simp [firstRecognisedHandler, List.find?]
  · intro handler status hsel hout
    rw [← selectHandler_eq_firstRecognised] at hsel
    simp [PrivacyWalletService, hsel, hout]

/-- Claim C10 on the demo wallet: burning 50 with a balance of 21 makes `generateBurnTx`
throw, and the dispatcher answers `FAILED_PRECONDITION` with the text of the exception. -/
theorem dispatcher_status_witness :
    firstRecognisedHandler demoOps { generate_burn_tx_request := some { amount := 50 } } =
      some (handleUserBurnRequest demoOps) ∧
    (handleUserBurnRequest demoOps demoRegistered
        { generate_burn_tx_request := some { amount := 50 } } (some {})).outcome =
      Outcome.threw (Exn.stdException "not enough coins") ∧
    (PrivacyWalletService demoOps demoRegistered
        { generate_burn_tx_request := some { amount := 50 } } (some {})).outcome =
      Outcome.returned ⟨StatusCode.FAILED_PRECONDITION, "not enough coins"⟩ :=
  ⟨rfl, by decide,
    congrArg Result.outcome
      ((dispatcher_status demoOps demoRegistered
        { generate_burn_tx_request := some { amount := 50 } } (some {})).2.1
        (handleUserBurnRequest demoOps) (Exn.stdException "not enough coins") rfl (by decide))⟩

/-! ### The private key, and the claim data -/

/-- Claim C11. Two wallet-config requests that differ only in `private_key`, handled from
the same service state with the same response message: when the handler returns for
both, the two statuses (code and message) are equal and the two responses are equal. What
is returned is one of two replies, neither of which is computed from the request:
`ALREADY_EXISTS` with `err` = "wallet is already configured", or OK with `succ` = true. -/
theorem wallet_config_private_key_independent {W : Type} (ops : Collaborators W)
    (s : ServiceState W) (request : PrivacyWalletRequest) (cfg : PrivacyWalletConfigRequest)
    (key1 key2 : String) (r : PrivacyWalletResponse) (status1 status2 : Status)
    (h1 : (handleWalletConfigRequest ops s
        { request with privacy_wallet_config_request := some { cfg with private_key := key1 } }
        (some r)).outcome = Outcome.returned status1)
    (h2 : (handleWalletConfigRequest ops s
        { request with privacy_wallet_config_request := some { cfg with private_key := key2 } }
        (some r)).outcome = Outcome.returned status2) :
    status1 = status2 ∧
    (handleWalletConfigRequest ops s
        { request with privacy_wallet_config_request := some { cfg with private_key := key1 } }
        (some r)).response =
      (handleWalletConfigRequest ops s
        { request with privacy_wallet_config_request := some { cfg with private_key := key2 } }
        (some r)).response ∧
    ((status1 = ⟨StatusCode.ALREADY_EXISTS, "wallet is already configured"⟩ ∧
        (handleWalletConfigRequest ops s
          { request with privacy_wallet_config_request := some { cfg with private_key := key1 } }
          (some r)).response = some { r with err := some "wallet is already configured" }) ∨
      (status1 = Status.OK ∧
        (handleWalletConfigRequest ops s
          { request with privacy_wallet_config_request := some { cfg with private_key := key1 } }
          (some r)).response =
            some { r with privacy_wallet_config_response :=
                            some { (r.privacy_wallet_config_response.getD {}) with
                                     succ := true } })) := by
  obtain ⟨wallet, storage⟩ := s
  cases wallet with
  | some w =>
    simp only [handleWalletConfigRequest, replyError, PrivacyWalletResponse.set_err,
      Outcome.returned.injEq] at h1 h2
    subst h1 h2
    simp [handleWalletConfigRequest, replyError, PrivacyWalletResponse.set_err]
  | none =>
    cases hopen : ops.openStorage wallet_db_path with
    | error e => simp [handleWalletConfigRequest, hopen] at h1
    | ok st =>
      cases hnew1 : ops.newWallet cfg.user_id key1 cfg.public_key st
          cfg.public_application_config with
      | error e => simp [handleWalletConfigRequest, hopen, hnew1] at h1
      | ok w1 =>
        cases hnew2 : ops.newWallet cfg.user_id key2 cfg.public_key st
            cfg.public_application_config with
        | error e => simp [handleWalletConfigRequest, hopen, hnew2] at h2
        | ok w2 =>
          simp only [handleWalletConfigRequest, hopen, hnew1, hnew2, Option.getD_some,
            Outcome.returned.injEq] at h1 h2
          subst h1 h2
          simp [handleWalletConfigRequest, hopen, hnew1, hnew2]

/-- Claim C11 on the demo wallet: two keys, a service without a wallet, both requests are
answered OK with `succ` = true. -/
theorem wallet_config_private_key_independent_witness :
    (handleWalletConfigRequest demoOps ⟨none, none⟩
        { privacy_wallet_config_request :=
            some { private_key := "key one", public_key := "pk", user_id := "alice" } }
        (some {})).outcome = Outcome.returned Status.OK ∧
    (handleWalletConfigRequest demoOps ⟨none, none⟩
        { privacy_wallet_config_request :=
            some { private_key := "key two", public_key := "pk", user_id := "alice" } }
        (some {})).outcome = Outcome.returned Status.OK ∧
    (handleWalletConfigRequest demoOps ⟨none, none⟩
        { privacy_wallet_config_request :=
            some { private_key := "key one", public_key := "pk", user_id := "alice" } }
        (some {})).response =
      (handleWalletConfigRequest demoOps ⟨none, none⟩
        { privacy_wallet_config_request :=
            some { private_key := "key two", public_key := "pk", user_id := "alice" } }
        (some {})).response :=
  ⟨by decide, by decide,
    (wallet_config_private_key_independent demoOps ⟨none, none⟩ {}
      { public_key := "pk", user_id := "alice" } "key one" "key two" {} Status.OK Status.OK
      (by decide) (by decide)).2.1⟩

/-- Claim C12. For a claim-coins request with fewer than `2^31` signatures (`sigs().size()`
is an `int`): when its type is `MINT`, `BURN`, `TRANSFER` or `BUDGET`, `buildClaimCoinsData`
returns a transaction of type `Mint`, `Burn`, `Transfer` or `Budget` whose data are the
`tx` bytes of the request and whose number of outputs is the number of signatures,
together with the signatures of the request, entry by entry; for any other type value it
throws the runtime error "invalid transaction type" and returns nothing. -/
theorem buildClaimCoinsData_result (req : ClaimCoinsRequest)
    (hsize : req.sigs.length < 2 ^ 31) :
    (req.type = TxType.MINT → buildClaimCoinsData req =
      Except.ok (⟨TransactionType.Mint, req.tx, req.sigs.length⟩, req.sigs)) ∧
    (req.type = TxType.BURN → buildClaimCoinsData req =
      Except.ok (⟨TransactionType.Burn, req.tx, req.sigs.length⟩, req.sigs)) ∧
    (req.type = TxType.TRANSFER → buildClaimCoinsData req =
      Except.ok (⟨TransactionType.Transfer, req.tx, req.sigs.length⟩, req.sigs)) ∧
    (req.type = TxType.BUDGET → buildClaimCoinsData req =
      Except.ok (⟨TransactionType.Budget, req.tx, req.sigs.length⟩, req.sigs)) ∧
    (∀ data, buildClaimCoinsData req = Except.ok data →
      data.1.numOutputs_ = req.sigs.length ∧ data.2.length = req.sigs.length ∧
        ∀ i : Nat, data.2[i]? = req.sigs[i]?) ∧
    (∀ value, req.type = TxType.unrecognized value → buildClaimCoinsData req =
      Except.error (Exn.stdException "invalid transaction type")) := by
  have hlt : req.sigs.length < 4294967296 := by omega
  refine ⟨?_, ?_, ?_, ?_, ?_, ?_⟩
  · intro h; simp [buildClaimCoinsData, h, Nat.mod_eq_of_lt hlt]
  · intro h; simp [buildClaimCoinsData, h, Nat.mod_eq_of_lt hlt]
  · intro h; simp [buildClaimCoinsData, h, Nat.mod_eq_of_lt hlt]
  · intro h; simp [buildClaimCoinsData, h, Nat.mod_eq_of_lt hlt]
  · intro data hdata
    cases htype : req.type <;>
      simp [buildClaimCoinsData, htype, Nat.mod_eq_of_lt hlt] at hdata <;>
      (subst hdata; simp)
  · intro value h; simp [buildClaimCoinsData, h]

/-- Claim C12 on a concrete request: a `TRANSFER` with two signatures. -/
theorem buildClaimCoinsData_result_witness :
    ([[1, 2], [3]] : List Bytes).length < 2 ^ 31 ∧
    buildClaimCoinsData { tx := [9, 8], sigs := [[1, 2], [3]], type := TxType.TRANSFER } =
      Except.ok (⟨TransactionType.Transfer, [9, 8], 2⟩, [[1, 2], [3]]) :=
  ⟨by decide,
    (buildClaimCoinsData_result
      { tx := [9, 8], sigs := [[1, 2], [3]], type := TxType.TRANSFER } (by decide)).2.2.1 rfl⟩

/-! ### The storage handle -/

/-- With a null storage handle, a set-app-data request that has at least one key
dereferences the null handle. -/
theorem handleSetAppDataRequest_null_storage {W : Type} (ops : Collaborators W)
    (wallet : Option W) (request : PrivacyWalletRequest)
    (response : Option PrivacyWalletResponse)
    (hkeys : (request.set_app_data_request.getD {}).keys ≠ []) :
    (handleSetAppDataRequest ops ⟨wallet, none⟩ request response).outcome = Outcome.fault := by
  unfold handleSetAppDataRequest
  cases h : (request.set_app_data_request.getD {}).keys with
  | nil => exact absurd h hkeys
  | cons key keys => simp [h]

/-- With a null storage handle, a get-app-data request that has at least one key
dereferences the null handle. -/
theorem handleGetAppDataRequest_null_storage {W : Type} (ops : Collaborators W)
    (wallet : Option W) (request : PrivacyWalletRequest) (r : PrivacyWalletResponse)
    (hkeys : (request.get_app_data_request.getD {}).keys ≠ []) :
    (handleGetAppDataRequest ops ⟨wallet, none⟩ request (some r)).outcome = Outcome.fault := by
  unfold handleGetAppDataRequest
  cases h : (request.get_app_data_request.getD {}).keys with
  | nil => exact absurd h hkeys
  | cons key keys => simp [h]

/-- The loop of the set-app-data handler reads past the end of `values` when there are
fewer values than keys. -/
theorem setAppDataLoop_short_values (keys values : List String) (st : Storage)
    (hlen : values.length < keys.length) : setAppDataLoop st keys values = none := by
  induction keys generalizing values st with
  | nil => simp at hlen
  | cons key rest ih =>
    cases values with
    | nil => rfl
    | cons value values =>
      simp only [setAppDataLoop]
      exact ih values _ (by simpa using hlen)

/-- With fewer values than keys, a set-app-data request reads `values(i)` out of range,
also when the storage handle is initialised. -/
theorem handleSetAppDataRequest_short_values {W : Type} (ops : Collaborators W)
    (s : ServiceState W) (request : PrivacyWalletRequest)
    (response : Option PrivacyWalletResponse)
    (hlen : (request.set_app_data_request.getD {}).values.length <
      (request.set_app_data_request.getD {}).keys.length) :
    (handleSetAppDataRequest ops s request response).outcome = Outcome.fault := by
  obtain ⟨wallet, storage⟩ := s
  unfold handleSetAppDataRequest
  cases h : (request.set_app_data_request.getD {}).keys with
  | nil => simp [h] at hlen
  | cons key keys =>
    cases storage with
    | none => simp [h]
    | some st =>
      have hloop := setAppDataLoop_short_values _ _ st hlen
      rw [h] at hloop
      simp [h, hloop]

/-- Whatever holds of each of the eleven handlers holds of the handler the dispatcher
selects. -/
theorem selectHandler_cases {W : Type} (ops : Collaborators W) (request : PrivacyWalletRequest)
    (P : (ServiceState W → PrivacyWalletRequest → Option PrivacyWalletResponse → Result W) →
      Prop)
    (h1 : P (handleApplicationConfigRequest ops))
    (h2 : P (handleWalletConfigRequest ops))
    (h3 : P (handleUserRegistrationRequest ops))
    (h4 : P (handleUserRegistrationUpdateRequest ops))
    (h5 : P (handleUserClaimCoinsRequest ops))
    (h6 : P (handleUserMintRequest ops))
    (h7 : P (handleUserBurnRequest ops))
    (h8 : P (handleUserTransferRequest ops))
    (h9 : P (handleGetStateRequest ops))
    (h10 : P (handleSetAppDataRequest ops))
    (h11 : P (handleGetAppDataRequest ops)) :
    ∀ handler, selectHandler ops request = some handler → P handler := by
  unfold selectHandler
  cases request.privacy_app_config.isSome
  case true =>
    intro handler hsel
    simp only [Bool.false_eq_true, ↓reduceIte, Option.some.injEq] at hsel
    exact hsel ▸ h1
  cases request.privacy_wallet_config_request.isSome
  case true =>
    intro handler hsel
    simp only [Bool.false_eq_true, ↓reduceIte, Option.some.injEq] at hsel
    exact hsel ▸ h2
  cases request.user_registration_request.isSome
  case true =>
    intro handler hsel
    simp only [Bool.false_eq_true, ↓reduceIte, Option.some.injEq] at hsel
    exact hsel ▸ h3
  cases request.user_registration_update_request.isSome
  case true =>
    intro handler hsel
    simp only [Bool.false_eq_true, ↓reduceIte, Option.some.injEq] at hsel
    exact hsel ▸ h4
  cases request.claim_coins_request.isSome
  case true =>
    intro handler hsel
    simp only [Bool.false_eq_true, ↓reduceIte, Option.some.injEq] at hsel
    exact hsel ▸ h5
  cases request.generate_mint_tx_request.isSome
  case true =>
    intro handler hsel
    simp only [Bool.false_eq_true, ↓reduceIte, Option.some.injEq] at hsel
    exact hsel ▸ h6
  cases request.generate_burn_tx_request.isSome
  case true =>
    intro handler hsel
    simp only [Bool.false_eq_true, ↓reduceIte, Option.some.injEq] at hsel
    exact hsel ▸ h7
  cases request.generate_transfer_tx_request.isSome
  case true =>
    intro handler hsel
    simp only [Bool.false_eq_true, ↓reduceIte, Option.some.injEq] at hsel
    exact hsel ▸ h8
  cases request.get_state_request.isSome
  case true =>
    intro handler hsel
    simp only [Bool.false_eq_true, ↓reduceIte, Option.some.injEq] at hsel
    exact hsel ▸ h9
  cases request.set_app_data_request.isSome
  case true =>
    intro handler hsel
    simp only [Bool.false_eq_true, ↓reduceIte, Option.some.injEq] at hsel
    exact hsel ▸ h10
  cases request.get_app_data_request.isSome
  case true =>
    intro handler hsel
    simp only [Bool.false_eq_true, ↓reduceIte, Option.some.injEq] at hsel
    exact hsel ▸ h11
  intro handler hsel
  simp at hsel

/-- No handler assigns the storage handle while a wallet is set, and none resets the
wallet: a service with a wallet and a null storage handle stays so. -/
theorem selectHandler_keeps_null_storage {W : Type} (ops : Collaborators W)
    (request : PrivacyWalletRequest)
    (handler : ServiceState W → PrivacyWalletRequest → Option PrivacyWalletResponse → Result W)
    (hsel : selectHandler ops request = some handler) (w : W)
    (response : Option PrivacyWalletResponse) :
    (handler ⟨some w, none⟩ request response).state.wallet_.isSome = true ∧
      (handler ⟨some w, none⟩ request response).state.storage_ = none := by
  refine selectHandler_cases ops request
    (fun handler => (handler ⟨some w, none⟩ request response).state.wallet_.isSome = true ∧
      (handler ⟨some w, none⟩ request response).state.storage_ = none)
    ?_ ?_ ?_ ?_ ?_ ?_ ?_ ?_ ?_ ?_ ?_ handler hsel
  · unfold handleApplicationConfigRequest
    simp only
    split
    · simp
    · split
      · simp
      · cases response <;> simp
  · cases response <;> simp [handleWalletConfigRequest, replyError]
  · cases hreg : ops.isRegistered w <;>
      rcases hc : ops.generateRegistrationInput w with ⟨res, w1⟩ <;>
      rcases res with e | (_ | ri) <;> cases response <;>
      simp [handleUserRegistrationRequest, hreg, hc, replyError]
  · cases hreg : ops.isRegistered w <;>
      rcases hc : ops.updateRegistrationCommitment w
        (request.user_registration_update_request.getD {}).rcm_sig
        (request.user_registration_update_request.getD {}).s2 with ⟨res, w1⟩ <;>
      rcases res with e | (_ | _) <;> cases response <;>
      simp [handleUserRegistrationUpdateRequest, hreg, hc, replyError]
  · cases hreg : ops.isRegistered w
    · cases response <;> simp [handleUserClaimCoinsRequest, hreg, replyError]
    · cases hb : buildClaimCoinsData (request.claim_coins_request.getD {}) with
      | error e =>
        cases e <;> cases response <;>
          simp [handleUserClaimCoinsRequest, hreg, hb, replyError, claimCoinsCatch,
            claimCoinsSucceed]
      | ok data =>
        rcases hc : ops.claimCoins w data.1 data.2 with ⟨res, w1⟩
        rcases res with e | (_ | _)
        · cases e <;> cases response <;>
            simp [handleUserClaimCoinsRequest, hreg, hb, hc, replyError, claimCoinsCatch,
              claimCoinsSucceed]
        · cases response <;>
            simp [handleUserClaimCoinsRequest, hreg, hb, hc, replyError]
        · cases response <;>
            simp [handleUserClaimCoinsRequest, hreg, hb, hc, claimCoinsSucceed]
  · cases hreg : ops.isRegistered w <;>
      rcases hc : ops.generateMintTx w (request.generate_mint_tx_request.getD {}).amount
        with ⟨res, w1⟩ <;>
      rcases res with e | tx <;> cases response <;>
      simp [handleUserMintRequest, hreg, hc, replyError]
  · cases hreg : ops.isRegistered w <;>
      rcases hc : ops.generateBurnTx w (request.generate_burn_tx_request.getD {}).amount
        with ⟨res, w1⟩ <;>
      rcases res with e | tx <;> cases response <;>
      simp [handleUserBurnRequest, hreg, hc, replyError]
  · cases hreg : ops.isRegistered w <;>
      rcases hc : ops.generateTransferTx w
        (request.generate_transfer_tx_request.getD {}).amount
        (request.generate_transfer_tx_request.getD {}).recipient_pid
        (request.generate_transfer_tx_request.getD {}).recipient_public_key with ⟨res, w1⟩ <;>
      rcases res with e | tx <;> cases response <;>
      simp [handleUserTransferRequest, hreg, hc, replyError]
  · cases hreg : ops.isRegistered w <;> cases response <;>
      simp [handleGetStateRequest, hreg, replyError]
  · cases hk : (request.set_app_data_request.getD {}).keys <;> cases response <;>
      simp [handleSetAppDataRequest, hk]
  · cases hk : (request.get_app_data_request.getD {}).keys <;> cases response <;>
      simp [handleGetAppDataRequest, hk]

/-- The dispatcher leaves the service members as the selected handler left them. -/
theorem PrivacyWalletService_state {W : Type} (ops : Collaborators W) (s : ServiceState W)
    (request : PrivacyWalletRequest) (response : Option PrivacyWalletResponse) :
    (PrivacyWalletService ops s request response).state =
      match selectHandler ops request with
      | none => s
      | some handler => (handler s request response).state := by
  unfold PrivacyWalletService
  cases selectHandler ops request with
  | none => rfl
  | some handler =>
    simp only
    cases (handler s request response).outcome <;> rfl

/-- A service that starts with a wallet recovered from storage never gets a storage
handle: whatever requests it serves, `wallet_` stays set and `storage_` stays null. -/
theorem storage_null_after_recovery {W : Type} (ops : Collaborators W) (w : W)
    (later : List (PrivacyWalletRequest × PrivacyWalletResponse)) :
    ∃ w1, stateAfter ops ⟨some w, none⟩ later = ⟨some w1, none⟩ := by
  induction later generalizing w with
  | nil => exact ⟨w, rfl⟩
  | cons p rest ih =>
    obtain ⟨request, r⟩ := p
    have hstep : ∃ w1, (PrivacyWalletService ops ⟨some w, none⟩ request (some r)).state =
        ⟨some w1, none⟩ := by
      rw [PrivacyWalletService_state]
      cases hsel : selectHandler ops request with
      | none => exact ⟨w, rfl⟩
      | some handler =>
        obtain ⟨hw, hs⟩ := selectHandler_keeps_null_storage ops request handler hsel w (some r)
        simp only
        rcases hstate : (handler ⟨some w, none⟩ request (some r)).state with ⟨wallet, storage⟩
        rw [hstate] at hw hs
        simp only at hs
        subst hs
        cases wallet with
        | none => simp at hw
        | some w1 => exact ⟨w1, rfl⟩
    obtain ⟨w1, hw1⟩ := hstep
    simp only [stateAfter, hw1]
    exact ih w1

/-- After a start with a recovered wallet, at any later time, a set-app-data request and a
get-app-data request with at least one key dereference the null storage handle. -/
theorem app_data_fault_after_recovery {W : Type} (ops : Collaborators W) (w : W)
    (later : List (PrivacyWalletRequest × PrivacyWalletResponse))
    (request : PrivacyWalletRequest) (r : PrivacyWalletResponse) :
    ((request.set_app_data_request.getD {}).keys ≠ [] →
      (handleSetAppDataRequest ops (stateAfter ops ⟨some w, none⟩ later) request
        (some r)).outcome = Outcome.fault) ∧
    ((request.get_app_data_request.getD {}).keys ≠ [] →
      (handleGetAppDataRequest ops (stateAfter ops ⟨some w, none⟩ later) request
        (some r)).outcome = Outcome.fault) := by
  obtain ⟨w1, hw1⟩ := storage_null_after_recovery ops w later
  rw [hw1]
  exact ⟨handleSetAppDataRequest_null_storage ops (some w1) request (some r),
    handleGetAppDataRequest_null_storage ops (some w1) request r⟩

/-- Claim C13, evaluated on the code. (1) A service started with nothing in storage has
no wallet and a null storage handle, and its first request, a set-app-data or a
get-app-data request with one key, dereferences the null handle. (2) A service started
with a recovered wallet has a null storage handle; a wallet-config request is answered
`ALREADY_EXISTS` and leaves it null; the set-app-data and get-app-data requests that
follow dereference it. (3) After a successful wallet-config request the handle is set, and
a set-app-data request with two keys and one value reads `values(1)` out of range. -/
theorem app_data_storage_handle_faults :
    (PrivacyWalletServiceImpl (fun _ => Except.ok (none : Option DemoWallet)) =
        some ⟨none, none⟩ ∧
      (PrivacyWalletService demoOps ⟨none, none⟩
          { set_app_data_request := some { keys := ["k"], values := ["v"] } }
          (some {})).outcome = Outcome.fault ∧
      (PrivacyWalletService demoOps ⟨none, none⟩
          { get_app_data_request := some { keys := ["k"] } } (some {})).outcome =
        Outcome.fault) ∧
    (PrivacyWalletServiceImpl (fun _ => Except.ok (some (⟨"alice", true, []⟩ : DemoWallet))) =
        some ⟨some ⟨"alice", true, []⟩, none⟩ ∧
      (PrivacyWalletService demoOps ⟨some ⟨"alice", true, []⟩, none⟩
          { privacy_wallet_config_request :=
              some { private_key := "sk", public_key := "pk", user_id := "alice" } }
          (some {})).outcome =
        Outcome.returned ⟨StatusCode.ALREADY_EXISTS, "wallet is already configured"⟩ ∧
      stateAfter demoOps ⟨some ⟨"alice", true, []⟩, none⟩
          [({ privacy_wallet_config_request :=
                some { private_key := "sk", public_key := "pk", user_id := "alice" } }, {})] =
        ⟨some ⟨"alice", true, []⟩, none⟩ ∧
      (PrivacyWalletService demoOps ⟨some ⟨"alice", true, []⟩, none⟩
          { set_app_data_request := some { keys := ["k"], values := ["v"] } }
          (some {})).outcome = Outcome.fault ∧
      (PrivacyWalletService demoOps ⟨some ⟨"alice", true, []⟩, none⟩
          { get_app_data_request := some { keys := ["k"] } } (some {})).outcome =
        Outcome.fault) ∧
    (stateAfter demoOps ⟨none, none⟩
          [({ privacy_wallet_config_request :=
                some { private_key := "sk", public_key := "pk", user_id := "alice" } }, {})] =
        ⟨some ⟨"alice", false, []⟩, some ⟨[]⟩⟩ ∧
      (PrivacyWalletService demoOps ⟨some ⟨"alice", false, []⟩, some ⟨[]⟩⟩
          { set_app_data_request := some { keys := ["a", "b"], values := ["1"] } }
          (some {})).outcome = Outcome.fault) := by
  decide

end PrivacyWallet
